import Mathlib

/-!
Verification development for the SRS pipeline repository.

The repository generates and validates Software Requirements Specification
documents through a generate → validate → auto-fix loop:

  * `src/templates/template_registry.py` — template catalog and selector
  * `src/generator/srs_generator.py`     — `SRSGenerator.generate`
  * `src/validator/srs_validator.py`     — `SRSValidator.validate` and its
    response parser `_parse_validation_response`
  * `src/pipeline/srs_pipeline.py`       — `SRSPipeline.run`,
    `_attempt_auto_fix`, `_build_fix_instructions`

The external text-generation service (Gemini) is modelled as an oracle
`String → Except String String` mapping the prompt to either the reply text
(`Except.ok`) or a stringified exception (`Except.error`); the pipeline takes
one oracle per service call index so call counts are observable.  `json.loads`
is modelled as an abstract decoder parameter `String → Option Py`; a concrete
executable decoder `jsonDecode` is supplied for witnesses and counterexamples.

Python dynamic values (the decoded JSON the validator returns and the pipeline
consumes with `.get`) are modelled by the inductive type `Py`.  Dictionary
access `d.get(k, default)` is modelled totally by `Py.get` (Python would raise
`AttributeError` on a non-dict receiver; no claim exercises that path, and the
pipeline only reaches `.get` on decoder output it treats as a dict).
-/

/-- Model of a Python/JSON dynamic value. `null` is Python `None`. A dict is an
association list in insertion order with unique keys. -/
inductive Py where
  | null
  | bool (b : Bool)
  | int (n : Int)
  | str (s : String)
  | list (xs : List Py)
  | dict (kvs : List (String × Py))

mutual

/-- Structural boolean equality on `Py` values, modelling Python `==` for the
value shapes the code compares (strings against strings). Python's numeric
cross-type equalities (`True == 1`) are not modelled; the source only compares
`.get` results against string literals, where structural equality agrees. -/
def pyEqV : Py → Py → Bool
  | Py.null, Py.null => true
  | Py.bool a, Py.bool b => a == b
  | Py.int a, Py.int b => a == b
  | Py.str a, Py.str b => a == b
  | Py.list as, Py.list bs => pyEqL as bs
  | Py.dict as, Py.dict bs => pyEqD as bs
  | _, _ => false

/-- Elementwise equality of Python lists. -/
def pyEqL : List Py → List Py → Bool
  | [], [] => true
  | a :: as, b :: bs => pyEqV a b && pyEqL as bs
  | _, _ => false

/-- Entrywise equality of Python dicts in insertion order (the decoded dicts
the code compares never rely on Python's order-insensitive dict equality). -/
def pyEqD : List (String × Py) → List (String × Py) → Bool
  | [], [] => true
  | (ka, va) :: as, (kb, vb) :: bs => ka == kb && pyEqV va vb && pyEqD as bs
  | _, _ => false

end

/-- Python `==` on dynamic values. -/
def pyEq (a b : Py) : Bool := pyEqV a b

/-- Python `d.get(key, default)`: first binding of `key`, else the default.
Total model: a non-dict receiver yields the default (Python would raise). -/
def Py.get (v : Py) (key : String) (default : Py) : Py :=
  match v with
  | Py.dict kvs => (List.lookup key kvs).getD default
  | _ => default

/-- View a `Py` value as a Python list for iteration; non-lists give `[]`
(the pipeline only iterates values that are lists in every reachable path). -/
def Py.asList : Py → List Py
  | Py.list xs => xs
  | _ => []

/-- Python truthiness (`if value:`): `None`, `False`, `0`, `""`, `[]`, `{}`
are falsy, everything else truthy. -/
def pyTruthy : Py → Bool
  | Py.null => false
  | Py.bool b => b
  | Py.int n => n != 0
  | Py.str s => !s.isEmpty
  | Py.list xs => !xs.isEmpty
  | Py.dict kvs => !kvs.isEmpty

mutual

/-- Python `repr` for dynamic values (string escaping is not reproduced; no
claim renders a string that needs escaping). -/
def pyReprV : Py → String
  | Py.null => "None"
  | Py.bool true => "True"
  | Py.bool false => "False"
  | Py.int n => toString n
  | Py.str s => "\x27" ++ s ++ "\x27"
  | Py.list xs => "[" ++ pyReprL xs ++ "]"
  | Py.dict kvs => "\x7b" ++ pyReprD kvs ++ "\x7d"

/-- Comma-separated reprs of list elements. -/
def pyReprL : List Py → String
  | [] => ""
  | [x] => pyReprV x
  | x :: xs => pyReprV x ++ ", " ++ pyReprL xs

/-- Comma-separated reprs of dict entries. -/
def pyReprD : List (String × Py) → String
  | [] => ""
  | [(k, v)] => "\x27" ++ k ++ "\x27: " ++ pyReprV v
  | (k, v) :: kvs => "\x27" ++ k ++ "\x27: " ++ pyReprV v ++ ", " ++ pyReprD kvs

end

/-- Python `str(value)`, as used by f-string interpolation. -/
def pyStr : Py → String
  | Py.str s => s
  | Py.bool true => "True"
  | Py.bool false => "False"
  | Py.null => "None"
  | Py.int n => toString n
  | v => pyReprV v

/-- Insert or overwrite one key in a Python dict: an existing key keeps its
position and gets the new value, a new key is appended. -/
def dictUpdate (kvs : List (String × Py)) (k : String) (v : Py) : List (String × Py) :=
  if kvs.any (fun p => p.1 == k) then
    kvs.map (fun p => if p.1 == k then (k, v) else p)
  else kvs ++ [(k, v)]

/-- Sequentially insert the items of `items` into the dict `kvs`, modelling
the Python dict-literal splat `{**a, **b}`. -/
def dictExtend (kvs items : List (String × Py)) : List (String × Py) :=
  items.foldl (fun acc p => dictUpdate acc p.1 p.2) kvs

/-- ASCII lowercasing, modelling Python `str.lower()` on the ASCII inputs the
code compares (template ids, keyword matching). -/
def pyLower (s : String) : String := String.mk (s.data.map Char.toLower)

/-- True when `n` occurs as a contiguous run in the second list. -/
def listInfixOf (n : List Char) : List Char → Bool
  | [] => n.isEmpty
  | c :: rest => n.isPrefixOf (c :: rest) || listInfixOf n rest

/-- Python's `needle in haystack` substring test. -/
def strContains (haystack needle : String) : Bool :=
  listInfixOf needle.data haystack.data

/-- Whitespace class of Python's `str.strip()` and of `\s` in the validator's
fence regex (ASCII part). -/
def isPySpace (c : Char) : Bool :=
  c = ' ' || c = '\t' || c = '\n' || c = '\r' || c = '\x0b' || c = '\x0c'

/-- Python `text.strip()`. -/
def pyStrip (s : String) : String :=
  String.mk (((s.data.dropWhile isPySpace).reverse.dropWhile isPySpace).reverse)

/-- The backtick character, written by code point to keep it out of the
source text. -/
def tick : Char := Char.ofNat 96

/-- Does the list start with a triple backtick fence marker? -/
def isTripleTick : List Char → Bool
  | a :: b :: c :: _ => a == tick && b == tick && c == tick
  | _ => false

/-- Lazy group scan of the validator's fence regex: the shortest prefix
(group 1, `(.*?)` under `re.DOTALL`) that is followed by `\n?` and a closing
triple backtick. `none` when no closing fence exists. -/
def lazyGroup : List Char → Option (List Char)
  | [] => none
  | c :: rest =>
    if isTripleTick (c :: rest) then some []
    else if c = '\n' && isTripleTick rest then some []
    else (lazyGroup rest).map (fun g => c :: g)

/-- The part of the fence regex after the opening triple backtick:
`(?:json)?\s*\n?(.*?)\n?` followed by the closing fence. The optional `json`
tag and the maximal whitespace run are consumed greedily; the group is lazy. -/
def fenceAfter (t : List Char) : Option (List Char) :=
  let t1 := if t.take 4 = ['j', 's', 'o', 'n'] then t.drop 4 else t
  lazyGroup (t1.dropWhile isPySpace)

/-- Leftmost-match search for the validator's fence regex
`(mark)(?:json)?\s*\n?(.*?)\n?(mark)` with `mark` a triple backtick under
`re.DOTALL`; returns group 1 of the leftmost match, as `re.search` does. When
a candidate opening fence has no closing fence the search restarts one
character later. -/
def fenceSearchAux : List Char → Option (List Char)
  | [] => none
  | c :: rest =>
    if isTripleTick (c :: rest) then
      match fenceAfter (rest.drop 2) with
      | some g => some g
      | none => fenceSearchAux rest
    else fenceSearchAux rest

/-- Payload selection of `SRSValidator._parse_validation_response`: group 1 of
a fenced code block when one is found, else the whole reply; stripped. -/
def SRSValidator.extract_payload (response_text : String) : String :=
  match fenceSearchAux response_text.data with
  | some g => pyStrip (String.mk g)
  | none => pyStrip response_text

/-- JSON whitespace accepted between tokens by `json.loads`. -/
def isJsonWs (c : Char) : Bool :=
  c = ' ' || c = '\t' || c = '\n' || c = '\r'

/-- Decode one JSON string body (after the opening quote), handling the
escape sequences of strict JSON other than `\uXXXX`; returns the decoded
string and the input following the closing quote. -/
def jsonStringAux : Nat → List Char → List Char → Option (String × List Char)
  | 0, _, _ => none
  | _ + 1, [], _ => none
  | fuel + 1, c :: rest, acc =>
    if c = '\x22' then some (String.mk acc.reverse, rest)
    else if c = '\x5c' then
      match rest with
      | [] => none
      | e :: rest2 =>
        if e = '\x22' then jsonStringAux fuel rest2 ('\x22' :: acc)
        else if e = '\x5c' then jsonStringAux fuel rest2 ('\x5c' :: acc)
        else if e = '/' then jsonStringAux fuel rest2 ('/' :: acc)
        else if e = 'n' then jsonStringAux fuel rest2 ('\n' :: acc)
        else if e = 't' then jsonStringAux fuel rest2 ('\t' :: acc)
        else if e = 'r' then jsonStringAux fuel rest2 ('\r' :: acc)
        else if e = 'b' then jsonStringAux fuel rest2 ('\x08' :: acc)
        else if e = 'f' then jsonStringAux fuel rest2 ('\x0c' :: acc)
        else none
    else jsonStringAux fuel rest (c :: acc)

/-- Decode a JSON unsigned integer literal; returns the value and remainder. -/
def jsonNatAux (l : List Char) : Option (Nat × List Char) :=
  let digits := l.takeWhile Char.isDigit
  if digits.isEmpty then none
  else some (digits.foldl (fun n c => 10 * n + (c.toNat - 48)) 0, l.drop digits.length)

mutual

/-- Decode one JSON value from the input, skipping leading whitespace.
Concrete instance of the decoder parameter that models `json.loads`;
covers objects, arrays, strings, integers, booleans and null (floats and
`\uXXXX` escapes are not needed by any witness input). -/
def jsonValAux : Nat → List Char → Option (Py × List Char)
  | 0, _ => none
  | fuel + 1, input =>
    match input.dropWhile isJsonWs with
    | [] => none
    | c :: rest =>
      if c = '\x7b' then jsonMembersAux fuel rest true []
      else if c = '[' then jsonItemsAux fuel rest true []
      else if c = '\x22' then
        match jsonStringAux (fuel + 1) rest [] with
        | some (s, r) => some (Py.str s, r)
        | none => none
      else if c = 't' then
        if rest.take 3 = ['r', 'u', 'e'] then some (Py.bool true, rest.drop 3) else none
      else if c = 'f' then
        if rest.take 4 = ['a', 'l', 's', 'e'] then some (Py.bool false, rest.drop 4) else none
      else if c = 'n' then
        if rest.take 3 = ['u', 'l', 'l'] then some (Py.null, rest.drop 3) else none
      else if c = '-' then
        match jsonNatAux rest with
        | some (n, r) => some (Py.int (-(n : Int)), r)
        | none => none
      else if c.isDigit then
        match jsonNatAux (c :: rest) with
        | some (n, r) => some (Py.int (n : Int), r)
        | none => none
      else none

/-- Decode the members of a JSON object after the opening brace; `first` is
true before the first member. Duplicate keys overwrite, as in `json.loads`. -/
def jsonMembersAux : Nat → List Char → Bool → List (String × Py) → Option (Py × List Char)
  | 0, _, _, _ => none
  | fuel + 1, input, first, acc =>
    match input.dropWhile isJsonWs with
    | [] => none
    | c :: rest =>
      if c = '\x7d' && first then some (Py.dict acc, rest)
      else
        let afterComma :=
          if first then some (c :: rest)
          else if c = ',' then some rest
          else if c = '\x7d' then none
          else none
        match afterComma with
        | none => if c = '\x7d' then some (Py.dict acc, rest) else none
        | some l1 =>
          match l1.dropWhile isJsonWs with
          | [] => none
          | k :: krest =>
            if k = '\x22' then
              match jsonStringAux (fuel + 1) krest [] with
              | none => none
              | some (key, afterKey) =>
                match afterKey.dropWhile isJsonWs with
                | ':' :: vstart =>
                  match jsonValAux fuel vstart with
                  | none => none
                  | some (v, afterV) =>
                      jsonMembersAux fuel afterV false (dictUpdate acc key v)
                | _ => none
            else none

/-- Decode the items of a JSON array after the opening bracket. -/
def jsonItemsAux : Nat → List Char → Bool → List Py → Option (Py × List Char)
  | 0, _, _, _ => none
  | fuel + 1, input, first, acc =>
    match input.dropWhile isJsonWs with
    | [] => none
    | c :: rest =>
      if c = ']' && first then some (Py.list acc.reverse, rest)
      else
        let afterComma :=
          if first then some (c :: rest)
          else if c = ',' then some rest
          else none
        match afterComma with
        | none => if c = ']' then some (Py.list acc.reverse, rest) else none
        | some l1 =>
          match jsonValAux fuel l1 with
          | none => none
          | some (v, afterV) => jsonItemsAux fuel afterV false (v :: acc)

end

/-- Executable JSON decoder used as the concrete instance of the abstract
`json.loads` parameter in witnesses and counterexamples. The whole input must
be consumed apart from trailing whitespace, as `json.loads` requires. -/
def jsonDecode (s : String) : Option Py :=
  match jsonValAux (2 * s.length + 8) s.data with
  | some (v, rest) => if (rest.dropWhile isJsonWs).isEmpty then some v else none
  | none => none

/-- An SRS template from the catalog: id, description, section-name list, the
generation prompt skeleton (with its single `format` substitution point for
the requirement) and the validation-criteria checklist. -/
structure Template where
  name : String
  description : String
  sections : List String
  promptTemplate : String
  validationCriteria : List String
deriving DecidableEq

/-- The `agile` template from `src/templates/agile_template.py`: name, description,
`self.sections`, `get_prompt_template()` and `get_validation_criteria()`. -/
def agileTemplate : Template where
  name := "agile"
  description := "Agile methodology SRS template with user stories, sprint planning, and iterative development focus"
  sections := [
    "Introduction",
    "Agile Overview",
    "User Personas",
    "Product Backlog",
    "Functional Requirements",
    "Non-Functional Requirements",
    "Sprint Planning",
    "Constraints and Assumptions",
    "Requirement Traceability Matrix",
    "Future Enhancements"]
  promptTemplate := "You are a Software Requirements Engineer experienced in Agile methodology.\n\nGenerate an extensive Software Requirements Specification (SRS) document in Agile format for the following system:\n\n**User Requirement:**\n{user_requirement}\n\nFollow Agile principles (iterative development, customer focus, adaptability).\nThe SRS should be clear, structured, and suitable for academic submission and real-world development.\n\nInclude the following sections:\n\n## 1. Introduction\n- Purpose of the document\n- Scope of the system\n- Definitions, acronyms, and abbreviations\n- References\n\n## 2. Agile Overview\n- Agile approach used (Scrum / Kanban / Hybrid)\n- Product vision\n- Stakeholders\n- Agile roles (Product Owner, Scrum Master, Development Team)\n\n## 3. User Personas\n- Description of different user types with demographics, goals, and pain points\n\n## 4. Product Backlog (User Stories)\n- User stories in the format: As a [user], I want [feature], so that [benefit]\n- Priority (High / Medium / Low)\n- Story points estimation\n- Acceptance criteria for each user story\n\n## 5. Functional Requirements\n- Derived from user stories\n- Clearly numbered and traceable (FR-001, FR-002, etc.)\n\n## 6. Non-Functional Requirements\n- Performance (response times, throughput)\n- Security (authentication, authorization, data protection)\n- Usability (accessibility, user experience)\n- Scalability (horizontal/vertical scaling)\n- Reliability (uptime, fault tolerance)\n\n## 7. Sprint Planning Overview\n- Sprint duration\n- Sample sprint backlog for first 2-3 sprints\n- Release planning summary\n- Definition of Done\n\n## 8. System Constraints and Assumptions\n- Technical constraints\n- Business constraints\n- Assumptions\n\n## 9. Requirement Traceability Matrix (RTM)\n- Mapping user stories to functional requirements\n- Use table format\n\n## 10. Future Enhancements\n- Features planned for later iterations\n- Technical debt items\n\nUse simple language, bullet points, and tables where appropriate.\nFormat the output in clean Markdown."
  validationCriteria := [
    "Document must contain all 10 required sections",
    "User stories must follow \x27As a [user], I want [feature], so that [benefit]\x27 format",
    "Each user story must have priority and acceptance criteria",
    "Functional requirements must be numbered (FR-XXX format)",
    "Non-functional requirements must cover: performance, security, usability, scalability, reliability",
    "Sprint planning must include sprint duration and sample backlog",
    "RTM must map user stories to functional requirements",
    "Document must be relevant to the user\x27s original requirement"]

/-- The `ieee` template from `src/templates/ieee_template.py`: name, description,
`self.sections`, `get_prompt_template()` and `get_validation_criteria()`. -/
def ieeeTemplate : Template where
  name := "ieee"
  description := "IEEE 830 Standard SRS template - formal documentation suitable for academic and enterprise use"
  sections := [
    "Introduction",
    "Overall Description",
    "Specific Requirements",
    "Appendices",
    "Index"]
  promptTemplate := "You are a Software Requirements Engineer experienced in IEEE 830 Standard documentation.\n\nGenerate a comprehensive Software Requirements Specification (SRS) document following IEEE 830 Standard for the following system:\n\n**User Requirement:**\n{user_requirement}\n\nFollow IEEE 830 Standard guidelines for software requirements specifications.\nThe SRS should be formal, comprehensive, and suitable for academic submission and enterprise development.\n\nInclude the following sections:\n\n## 1. Introduction\n\n### 1.1 Purpose\n- Purpose of this SRS document\n- Intended audience and reading suggestions\n\n### 1.2 Scope\n- Software product name\n- What the software will do and will not do\n- Benefits, objectives, and goals\n\n### 1.3 Definitions, Acronyms, and Abbreviations\n- All terms used in this document\n\n### 1.4 References\n- List of referenced documents\n\n### 1.5 Overview\n- Organization of the SRS document\n\n## 2. Overall Description\n\n### 2.1 Product Perspective\n- System interfaces\n- User interfaces\n- Hardware interfaces\n- Software interfaces\n- Communication interfaces\n- Memory constraints\n- Operations\n- Site adaptation requirements\n\n### 2.2 Product Functions\n- Summary of major functions\n\n### 2.3 User Characteristics\n- Educational level, experience, and technical expertise of users\n\n### 2.4 Constraints\n- Regulatory policies\n- Hardware limitations\n- Interfaces to other applications\n- Parallel operations\n- Audit functions\n- Control functions\n- Higher-order language requirements\n- Signal handshake protocols\n- Reliability requirements\n- Criticality of the application\n- Safety and security considerations\n\n### 2.5 Assumptions and Dependencies\n- Factors that affect requirements\n\n### 2.6 Apportioning of Requirements\n- Requirements that may be delayed until future versions\n\n## 3. Specific Requirements\n\n### 3.1 External Interface Requirements\n#### 3.1.1 User Interfaces\n#### 3.1.2 Hardware Interfaces\n#### 3.1.3 Software Interfaces\n#### 3.1.4 Communication Interfaces\n\n### 3.2 Functional Requirements\n- Organized by feature, use case, or mode of operation\n- Each requirement numbered (REQ-XXX)\n- Include: Description, Inputs, Processing, Outputs\n\n### 3.3 Performance Requirements\n- Static and dynamic numerical requirements\n\n### 3.4 Design Constraints\n- Standards compliance\n- Hardware limitations\n\n### 3.5 Software System Attributes\n#### 3.5.1 Reliability\n#### 3.5.2 Availability\n#### 3.5.3 Security\n#### 3.5.4 Maintainability\n#### 3.5.5 Portability\n\n### 3.6 Other Requirements\n- Database requirements\n- Internationalization requirements\n- Legal requirements\n- Reuse objectives\n\n## 4. Appendices\n- Supporting information\n- Data flow diagrams description\n- Analysis models\n\n## 5. Index\n- Alphabetical index of key terms\n\nUse formal language, numbered sections, and tables where appropriate.\nFormat the output in clean Markdown following IEEE documentation standards."
  validationCriteria := [
    "Document must follow IEEE 830 section structure",
    "Introduction must include: purpose, scope, definitions, references, overview",
    "Overall Description must cover: product perspective, functions, user characteristics, constraints",
    "Specific Requirements must include functional requirements with REQ-XXX numbering",
    "Each functional requirement must have: description, inputs, processing, outputs",
    "Performance requirements must include measurable metrics",
    "Software system attributes must cover: reliability, availability, security, maintainability, portability",
    "Document must use formal technical language",
    "Document must be relevant to the user\x27s original requirement"]

/-- The `minimal` template from `src/templates/minimal_template.py`: name, description,
`self.sections`, `get_prompt_template()` and `get_validation_criteria()`. -/
def minimalTemplate : Template where
  name := "minimal"
  description := "Minimal SRS template for small projects, MVPs, and rapid prototyping"
  sections := [
    "Project Overview",
    "Features",
    "Requirements",
    "Constraints",
    "Milestones"]
  promptTemplate := "You are a Software Requirements Engineer specializing in lean documentation.\n\nGenerate a concise Software Requirements Specification (SRS) document for the following system:\n\n**User Requirement:**\n{user_requirement}\n\nCreate a minimal but complete SRS suitable for small projects and MVPs.\nFocus on clarity and actionability.\n\nInclude the following sections:\n\n## 1. Project Overview\n- Project name\n- Brief description (2-3 sentences)\n- Target users\n- Key objectives\n\n## 2. Features\nList all features in priority order:\n| Priority | Feature | Description |\n|----------|---------|-------------|\n| P1 (Must Have) | ... | ... |\n| P2 (Should Have) | ... | ... |\n| P3 (Nice to Have) | ... | ... |\n\n## 3. Requirements\n\n### 3.1 Functional Requirements\n- FR-001: [Requirement description]\n- FR-002: [Requirement description]\n(Continue as needed)\n\n### 3.2 Non-Functional Requirements\n- NFR-001: [Performance/Security/Usability requirement]\n(Continue as needed)\n\n## 4. Constraints\n- Technical constraints\n- Time constraints\n- Budget constraints (if applicable)\n- Dependencies\n\n## 5. Milestones\n| Milestone | Description | Target |\n|-----------|-------------|--------|\n| MVP | ... | ... |\n| v1.0 | ... | ... |\n\nKeep the document concise and actionable.\nUse bullet points and tables for clarity.\nFormat the output in clean Markdown."
  validationCriteria := [
    "Document must contain all 5 required sections",
    "Project overview must include: name, description, target users, objectives",
    "Features must be prioritized (P1/P2/P3 or Must Have/Should Have/Nice to Have)",
    "Functional requirements must be numbered (FR-XXX)",
    "Non-functional requirements must be numbered (NFR-XXX)",
    "Constraints section must be present",
    "Milestones must include at least MVP milestone",
    "Document must be relevant to the user\x27s original requirement"]

/-- The `startup` template from `src/templates/startup_template.py`: name, description,
`self.sections`, `get_prompt_template()` and `get_validation_criteria()`. -/
def startupTemplate : Template where
  name := "startup"
  description := "Startup SRS template with business focus, market analysis, and investor-ready documentation"
  sections := [
    "Executive Summary",
    "Problem Statement",
    "Solution Overview",
    "Market Analysis",
    "Product Features",
    "Technical Requirements",
    "MVP Scope",
    "Success Metrics",
    "Risks and Mitigations",
    "Roadmap"]
  promptTemplate := "You are a Product Manager and Software Requirements Engineer with startup experience.\n\nGenerate a comprehensive Software Requirements Specification (SRS) document for a startup product:\n\n**User Requirement:**\n{user_requirement}\n\nCreate a startup-focused SRS that\x27s suitable for investors, stakeholders, and development teams.\nBalance business objectives with technical requirements.\n\nInclude the following sections:\n\n## 1. Executive Summary\n- Product vision (one paragraph)\n- Value proposition\n- Target market\n- Key differentiators\n\n## 2. Problem Statement\n- Current pain points\n- Market gap\n- Why existing solutions fail\n- Opportunity size\n\n## 3. Solution Overview\n- How the product solves the problem\n- Core value proposition\n- Key benefits for users\n- Competitive advantages\n\n## 4. Market Analysis\n- Target audience segments\n- Market size (TAM/SAM/SOM if applicable)\n- Competitor analysis table:\n| Competitor | Strengths | Weaknesses | Our Advantage |\n|------------|-----------|------------|---------------|\n\n## 5. Product Features\n### Core Features (MVP)\n| Feature | User Benefit | Priority |\n|---------|--------------|----------|\n\n### Future Features (Post-MVP)\n| Feature | User Benefit | Target Release |\n|---------|--------------|----------------|\n\n## 6. Technical Requirements\n\n### 6.1 Functional Requirements\n- FR-001: [Requirement]\n- FR-002: [Requirement]\n\n### 6.2 Non-Functional Requirements\n- Performance: [Specific metrics]\n- Security: [Requirements]\n- Scalability: [Requirements]\n\n### 6.3 Technology Recommendations\n- Suggested tech stack\n- Third-party integrations\n\n## 7. MVP Scope\n- MVP features (absolute minimum)\n- MVP timeline estimate\n- MVP success criteria\n- What\x27s explicitly OUT of MVP scope\n\n## 8. Success Metrics (KPIs)\n| Metric | Target | Measurement Method |\n|--------|--------|-------------------|\n\n## 9. Risks and Mitigations\n| Risk | Probability | Impact | Mitigation Strategy |\n|------|-------------|--------|---------------------|\n\n## 10. Roadmap\n- Phase 1 (MVP): [Timeline and deliverables]\n- Phase 2: [Timeline and deliverables]\n- Phase 3: [Timeline and deliverables]\n- Long-term vision\n\nUse clear, investor-friendly language.\nInclude tables and bullet points for clarity.\nFormat the output in clean Markdown."
  validationCriteria := [
    "Document must contain all 10 required sections",
    "Executive summary must include: vision, value proposition, target market, differentiators",
    "Problem statement must clearly articulate the market gap",
    "Market analysis must include competitor comparison",
    "Features must be divided into MVP and post-MVP",
    "Functional requirements must be numbered (FR-XXX)",
    "MVP scope must clearly define what\x27s in and out of scope",
    "Success metrics must include measurable KPIs",
    "Risks must include probability, impact, and mitigation",
    "Roadmap must include at least 3 phases",
    "Document must be relevant to the user\x27s original requirement"]


/-- The registry's class-level template table `TemplateRegistry._templates`,
in declaration order. -/
def TemplateRegistry.templates : List (String × Template) :=
  [("agile", agileTemplate), ("ieee", ieeeTemplate),
   ("minimal", minimalTemplate), ("startup", startupTemplate)]

/-- `TemplateRegistry.get_template` / the module-level `get_template`:
case-insensitive lookup in the template table. -/
def TemplateRegistry.get_template (template_name : String) : Option Template :=
  List.lookup (pyLower template_name) TemplateRegistry.templates

/-- `TemplateRegistry.get_template_for_requirement`: keyword-based template
suggestion over the lowercased requirement, first match wins, default
`agile`. -/
def TemplateRegistry.get_template_for_requirement (requirement : String) : String :=
  let r := pyLower requirement
  if strContains r "ieee" || strContains r "formal" || strContains r "academic" then "ieee"
  else if strContains r "startup" || strContains r "investor" || strContains r "pitch" then "startup"
  else if strContains r "minimal" || strContains r "quick" || strContains r "mvp" || strContains r "simple" then "minimal"
  else if strContains r "agile" || strContains r "scrum" || strContains r "sprint" || strContains r "user story" then "agile"
  else "agile"

/-- Replace every occurrence of the pattern in the input, scanning left to
right; fuel is the input length, and the pattern is non-empty at every use. -/
def replaceAllAux (pat repl : List Char) : Nat → List Char → List Char
  | 0, l => l
  | _ + 1, [] => []
  | fuel + 1, c :: rest =>
    if pat.isPrefixOf (c :: rest) && !pat.isEmpty then
      repl ++ replaceAllAux pat repl fuel (List.drop pat.length (c :: rest))
    else c :: replaceAllAux pat repl fuel rest

/-- Python `template.format(user_requirement=req)` for the catalog's prompt
skeletons, whose only replacement field is `{user_requirement}`. -/
def pyFormatUserRequirement (template req : String) : String :=
  String.mk (replaceAllAux "{user_requirement}".data req.data template.data.length template.data)

/-- Result dict of `SRSGenerator.generate`. Keys that the source only sets on
one branch are `Option` fields (`none` means the key is absent); on failure
the source stores `None` under `srs_document`, also modelled as `none`. -/
structure GenResult where
  success : Bool
  srs_document : Option String
  template_used : String
  template_description : Option String
  sections : Option (List String)
  validation_criteria : Option (List String)
  metadata : Option Py
  error : Option String

/-- `SRSGenerator.generate` from `src/generator/srs_generator.py`. The single
outbound Gemini call is the oracle `svc`; `model` is the configured model id.
Template resolution: an explicitly given (truthy) template name is lowercased
and looked up; otherwise the selector picks; an unknown id falls back to the
fixed `agile` template. -/
def SRSGenerator.generate (svc : String → Except String String) (model : String)
    (user_requirement : String) (template_name : Option String)
    (custom_instructions : Option String) : GenResult :=
  let selected_template :=
    match template_name with
    | some t => if !t.isEmpty then pyLower t else TemplateRegistry.get_template_for_requirement user_requirement
    | none => TemplateRegistry.get_template_for_requirement user_requirement
  let resolved :=
    match TemplateRegistry.get_template selected_template with
    | some t => (t, selected_template)
    | none => (agileTemplate, "agile")
  let template := resolved.1
  let selected := resolved.2
  let prompt0 := pyFormatUserRequirement template.promptTemplate user_requirement
  let prompt :=
    match custom_instructions with
    | some ci => if !ci.isEmpty then prompt0 ++ "\n\n**Additional Instructions:**\n" ++ ci else prompt0
    | none => prompt0
  match svc prompt with
  | Except.ok text =>
      { success := true, srs_document := some text, template_used := selected,
        template_description := some template.description,
        sections := some template.sections,
        validation_criteria := some template.validationCriteria,
        metadata := some (Py.dict [("model", Py.str model),
          ("user_requirement_length", Py.int user_requirement.length),
          ("output_length", Py.int text.length)]),
        error := none }
  | Except.error e =>
      { success := false, srs_document := none, template_used := selected,
        template_description := none, sections := none, validation_criteria := none,
        metadata := none, error := some e }

/-- `SRSValidator._get_default_criteria`: fallback checklist used when the
template id is unknown and no criteria were supplied. -/
def SRSValidator.get_default_criteria : List String :=
  ["Document must have clear introduction and purpose",
   "Functional requirements must be present and numbered",
   "Non-functional requirements must be specified",
   "Document must be relevant to user requirements",
   "Document must be well-structured and readable",
   "All major sections must be present"]

/-- `SRSValidator._build_validation_prompt`: the grading prompt embedding the
requirement, template id, criteria (one `- ` line each) and the document. -/
def SRSValidator.build_validation_prompt (srs_document user_requirement template_name : String)
    (validation_criteria : List String) : String :=
  let criteria_text := String.intercalate "\n" (validation_criteria.map (fun c => "- " ++ c))
  "You are an expert SRS (Software Requirements Specification) document reviewer and validator.\n\nYour task is to validate the following SRS document against the original user requirement and the template criteria.\n\n## Original User Requirement:\n" ++
  user_requirement ++
  "\n\n## Template Used: " ++
  template_name ++
  "\n\n## Validation Criteria:\n" ++
  criteria_text ++
  "\n\n## SRS Document to Validate:\n" ++
  srs_document ++
  "\n\n---\n\nPlease analyze the SRS document and provide a detailed validation report in the following JSON format:\n\n```json\n\x7b\n    \"is_valid\": true/false,\n    \"score\": 0-100,\n    \"overall_assessment\": \"Brief overall assessment\",\n    \"issues\": [\n        \x7b\n            \"severity\": \"critical/major/minor\",\n            \"category\": \"category name\",\n            \"description\": \"Issue description\",\n            \"location\": \"Where in the document\"\n        \x7d\n    ],\n    \"suggestions\": [\n        \x7b\n            \"category\": \"category name\",\n            \"suggestion\": \"Improvement suggestion\",\n            \"priority\": \"high/medium/low\"\n        \x7d\n    ],\n    \"section_analysis\": [\n        \x7b\n            \"section_name\": \"Section name\",\n            \"present\": true/false,\n            \"quality\": \"excellent/good/fair/poor/missing\",\n            \"notes\": \"Analysis notes\"\n        \x7d\n    ],\n    \"requirement_coverage\": \x7b\n        \"covered_requirements\": [\"list of covered requirements from user input\"],\n        \"missing_requirements\": [\"list of requirements not adequately covered\"],\n        \"coverage_percentage\": 0-100\n    \x7d,\n    \"criteria_checklist\": [\n        \x7b\n            \"criterion\": \"The validation criterion\",\n            \"passed\": true/false,\n            \"notes\": \"Notes on this criterion\"\n        \x7d\n    ]\n\x7d\n```\n\nBe thorough but fair in your assessment. Focus on:\n1. Does the SRS accurately reflect the user\x27s requirements?\n2. Are all required sections present and complete?\n3. Is the document well-structured and professional?\n4. Are functional requirements properly numbered and traceable?\n5. Are non-functional requirements specific and measurable?\n6. Is the document suitable for actual software development?\n\nProvide only the JSON response, no additional text."

/-- Python truthiness of an optional criteria list (`if not validation_criteria:`):
falsy when absent or empty. -/
def listTruthy : Option (List String) → Bool
  | some cs => !cs.isEmpty
  | none => false

/-- Criteria resolution at the top of `SRSValidator.validate`: caller-supplied
criteria when truthy, else the named template's checklist, else the default
checklist. -/
def SRSValidator.resolve_criteria (template_name : String)
    (validation_criteria : Option (List String)) : List String :=
  if listTruthy validation_criteria then validation_criteria.getD []
  else
    match TemplateRegistry.get_template template_name with
    | some t => t.validationCriteria
    | none => SRSValidator.get_default_criteria

/-- `SRSValidator._parse_validation_response` with the `json.loads` decoder
abstracted as `jsonLoads`: extract the payload (fenced block group or whole
reply, stripped), decode it, and on decode failure return the deterministic
fallback structure with the raw reply preserved. -/
def SRSValidator.parse_validation_response (jsonLoads : String → Option Py)
    (response_text : String) : Py :=
  match jsonLoads (SRSValidator.extract_payload response_text) with
  | some result => result
  | none =>
      Py.dict [("is_valid", Py.bool false), ("score", Py.int 0),
        ("overall_assessment", Py.str "Failed to parse validation response"),
        ("issues", Py.list [Py.dict [("severity", Py.str "critical"),
          ("category", Py.str "parsing"),
          ("description", Py.str "Could not parse validation response")]]),
        ("suggestions", Py.list []),
        ("section_analysis", Py.list []),
        ("raw_response", Py.str response_text)]

/-- `SRSValidator.validate` from `src/validator/srs_validator.py`. `svc` is
the single outbound Gemini call for this invocation (`Except.error` models a
raised exception, caught by the `except` block). On a successful call the
parsed reply dict is splatted between `success: True` and the trailing
`metadata` entry; when the decoded reply is not a dict the splat raises
`TypeError`, landing in the same `except` block (its message is abstracted). -/
def SRSValidator.validate (svc : String → Except String String)
    (jsonLoads : String → Option Py) (model : String)
    (srs_document user_requirement template_name : String)
    (validation_criteria : Option (List String)) : Py :=
  let criteria := SRSValidator.resolve_criteria template_name validation_criteria
  let prompt := SRSValidator.build_validation_prompt srs_document user_requirement template_name criteria
  match svc prompt with
  | Except.error e =>
      Py.dict [("success", Py.bool false), ("error", Py.str e),
        ("is_valid", Py.bool false), ("score", Py.int 0)]
  | Except.ok text =>
      match SRSValidator.parse_validation_response jsonLoads text with
      | Py.dict kvs =>
          Py.dict (dictUpdate (dictExtend [("success", Py.bool true)] kvs) "metadata"
            (Py.dict [("model", Py.str model),
              ("template_validated", Py.str template_name),
              ("criteria_count", Py.int criteria.length)]))
      | _ =>
          Py.dict [("success", Py.bool false),
            ("error", Py.str "cannot unpack non-dict validation response"),
            ("is_valid", Py.bool false), ("score", Py.int 0)]

/-- The pipeline result dict built by `SRSPipeline.run`. Keys set only on some
paths (`error`, `template_description`, `sections`, and the document/validation
data) are `Option` fields; `final_score` holds whatever `.get("score", 0)`
returned, hence a dynamic value. -/
structure PipeResult where
  success : Bool
  user_requirement : String
  template_used : Option String
  srs_document : Option String
  validation_result : Option Py
  iterations : Nat
  final_score : Py
  error : Option String
  template_description : Option String
  sections : Option (List String)

/-- A pipeline run together with the number of Generator and Validator
invocations it performed (each invocation is exactly one outbound service
call, so these also count service calls). -/
structure RunTrace where
  result : PipeResult
  genCalls : Nat
  valCalls : Nat

/-- `SRSPipeline._build_fix_instructions`: a `- FIX:` line for every issue of
severity `critical` or `major`, then a `- IMPROVE:` line for each suggestion
of priority `high` among the first 3 suggestions, joined with newlines. -/
def SRSPipeline.build_fix_instructions (issues suggestions : List Py) : String :=
  let fromIssues := issues.filterMap (fun issue =>
    if pyEq (issue.get "severity" Py.null) (Py.str "critical")
        || pyEq (issue.get "severity" Py.null) (Py.str "major") then
      some ("- FIX: " ++ pyStr (issue.get "description" (Py.str "Unknown issue")))
    else none)
  let fromSuggestions := (suggestions.take 3).filterMap (fun s =>
    if pyEq (s.get "priority" Py.null) (Py.str "high") then
      some ("- IMPROVE: " ++ pyStr (s.get "suggestion" (Py.str "")))
    else none)
  String.intercalate "\n" (fromIssues ++ fromSuggestions)

/-- `SRSPipeline._attempt_auto_fix`: the bounded retry loop. `fuel` is the
remaining `range(max_retries)` iterations; `g`/`v` count Generator/Validator
invocations so far. Each round: build fix instructions from the current
validation result (break when empty), regenerate with them appended (break on
failure), overwrite the document, increment `iterations`, re-validate without
caller criteria, and break once validation passes. -/
def SRSPipeline.attempt_auto_fix (genSvc valSvc : Nat → String → Except String String)
    (jsonLoads : String → Option Py) (model : String) (user_requirement : String) :
    Nat → PipeResult → Py → Nat → Nat → RunTrace
  | 0, res, _, g, v => ⟨res, g, v⟩
  | fuel + 1, res, validation_result, g, v =>
    let issues := (validation_result.get "issues" (Py.list [])).asList
    let suggestions := (validation_result.get "suggestions" (Py.list [])).asList
    let fix_instructions := SRSPipeline.build_fix_instructions issues suggestions
    if fix_instructions.isEmpty then ⟨res, g, v⟩
    else
      let regen := SRSGenerator.generate (genSvc g) model user_requirement
        res.template_used
        (some ("Previous version had these issues that need to be fixed:\n" ++ fix_instructions))
      if !regen.success then ⟨res, g + 1, v⟩
      else
        let res1 := { res with srs_document := regen.srs_document,
                               iterations := res.iterations + 1 }
        let vr := SRSValidator.validate (valSvc v) jsonLoads model
          (res1.srs_document.getD "") user_requirement (res1.template_used.getD "") none
        let res2 := { res1 with validation_result := some vr,
                                final_score := vr.get "score" (Py.int 0) }
        if pyTruthy (vr.get "is_valid" (Py.bool false)) then ⟨res2, g + 1, v + 1⟩
        else SRSPipeline.attempt_auto_fix genSvc valSvc jsonLoads model user_requirement
          fuel res2 vr (g + 1) (v + 1)

/-- `SRSPipeline.run` from `src/pipeline/srs_pipeline.py`. `genSvc k` /
`valSvc k` are the oracles for the `k`-th Generator / Validator service call.
Generate once (failure: record the error and stop); then, when requested,
validate and — when `auto_fix` is set and validation did not pass — enter the
auto-fix loop; `success` is set on every path that survives generation. -/
def SRSPipeline.run (genSvc valSvc : Nat → String → Except String String)
    (jsonLoads : String → Option Py) (model : String)
    (user_requirement : String) (template_name custom_instructions : Option String)
    (validate auto_fix : Bool) (max_retries : Nat) : RunTrace :=
  let result : PipeResult :=
    { success := false, user_requirement := user_requirement, template_used := none,
      srs_document := none, validation_result := none, iterations := 0,
      final_score := Py.int 0, error := none, template_description := none,
      sections := none }
  let generation_result := SRSGenerator.generate (genSvc 0) model user_requirement
    template_name custom_instructions
  if !generation_result.success then
    ⟨{ result with error := some (generation_result.error.getD "Generation failed") }, 1, 0⟩
  else
    let result := { result with
      srs_document := generation_result.srs_document,
      template_used := some generation_result.template_used,
      template_description := generation_result.template_description,
      sections := generation_result.sections,
      iterations := 1 }
    if validate then
      let validation_result := SRSValidator.validate (valSvc 0) jsonLoads model
        (generation_result.srs_document.getD "") user_requirement
        generation_result.template_used generation_result.validation_criteria
      let result := { result with validation_result := some validation_result,
                                  final_score := validation_result.get "score" (Py.int 0) }
      if auto_fix && !pyTruthy (validation_result.get "is_valid" (Py.bool false)) then
        let t := SRSPipeline.attempt_auto_fix genSvc valSvc jsonLoads model
          user_requirement max_retries result validation_result 1 1
        ⟨{ t.result with success := true }, t.genCalls, t.valCalls⟩
      else ⟨{ result with success := true }, 1, 1⟩
    else ⟨{ result with success := true }, 1, 0⟩

/-- Observer for the first (and only unconditional) Generator invocation a
run performs, used to state claims about runs whose first generation
succeeds or fails. -/
def firstGeneration (genSvc : Nat → String → Except String String) (model : String)
    (user_requirement : String) (template_name custom_instructions : Option String) : GenResult :=
  SRSGenerator.generate (genSvc 0) model user_requirement template_name custom_instructions

/-- The prompt of the first Validator invocation of a run (when `validate` is
requested), as assembled by `SRSValidator.validate`. -/
def firstValidationPrompt (genSvc : Nat → String → Except String String) (model : String)
    (user_requirement : String) (template_name custom_instructions : Option String) : String :=
  let gen := firstGeneration genSvc model user_requirement template_name custom_instructions
  SRSValidator.build_validation_prompt (gen.srs_document.getD "") user_requirement
    gen.template_used
    (SRSValidator.resolve_criteria gen.template_used gen.validation_criteria)

/-- The first validation result of a run (when `validate` is requested). -/
def firstValidation (genSvc valSvc : Nat → String → Except String String)
    (jsonLoads : String → Option Py) (model : String)
    (user_requirement : String) (template_name custom_instructions : Option String) : Py :=
  let gen := firstGeneration genSvc model user_requirement template_name custom_instructions
  SRSValidator.validate (valSvc 0) jsonLoads model (gen.srs_document.getD "")
    user_requirement gen.template_used gen.validation_criteria

set_option maxRecDepth 8000

/-- The template table does contain the fixed fallback id used by
`SRSGenerator.generate`. -/
theorem get_template_agile : TemplateRegistry.get_template "agile" = some agileTemplate := rfl

/-- The auto-fix loop performs at most `fuel` further Generator invocations. -/
theorem attempt_auto_fix_genCalls_le
    (gs vs : Nat → String → Except String String) (jl : String → Option Py) (m u : String) :
    ∀ (fuel : Nat) (res : PipeResult) (vr : Py) (g v : Nat),
      (SRSPipeline.attempt_auto_fix gs vs jl m u fuel res vr g v).genCalls ≤ g + fuel := by
  intro fuel
  induction fuel with
  | zero =>
    intro res vr g v
    simp [SRSPipeline.attempt_auto_fix]
  | succ n ih =>
    intro res vr g v
    simp only [SRSPipeline.attempt_auto_fix]
    split
    · simp
    · split
      · simp
      · split
        · simp
        · exact Nat.le_trans (ih _ _ _ _) (by omega)

/-- The auto-fix loop never loses already-performed Generator invocations. -/
theorem attempt_auto_fix_genCalls_ge
    (gs vs : Nat → String → Except String String) (jl : String → Option Py) (m u : String) :
    ∀ (fuel : Nat) (res : PipeResult) (vr : Py) (g v : Nat),
      g ≤ (SRSPipeline.attempt_auto_fix gs vs jl m u fuel res vr g v).genCalls := by
  intro fuel
  induction fuel with
  | zero =>
    intro res vr g v
    simp [SRSPipeline.attempt_auto_fix]
  | succ n ih =>
    intro res vr g v
    simp only [SRSPipeline.attempt_auto_fix]
    split
    · simp
    · split
      · simp
      · split
        · simp
        · exact Nat.le_trans (by omega) (ih _ _ _ _)

/-- The auto-fix loop performs at most `fuel` further Validator invocations. -/
theorem attempt_auto_fix_valCalls_le
    (gs vs : Nat → String → Except String String) (jl : String → Option Py) (m u : String) :
    ∀ (fuel : Nat) (res : PipeResult) (vr : Py) (g v : Nat),
      (SRSPipeline.attempt_auto_fix gs vs jl m u fuel res vr g v).valCalls ≤ v + fuel := by
  intro fuel
  induction fuel with
  | zero =>
    intro res vr g v
    simp [SRSPipeline.attempt_auto_fix]
  | succ n ih =>
    intro res vr g v
    simp only [SRSPipeline.attempt_auto_fix]
    split
    · simp
    · split
      · simp
      · split
        · simp
        · exact Nat.le_trans (ih _ _ _ _) (by omega)

/-- `iterations` never decreases across the auto-fix loop. -/
theorem attempt_auto_fix_iterations_ge
    (gs vs : Nat → String → Except String String) (jl : String → Option Py) (m u : String) :
    ∀ (fuel : Nat) (res : PipeResult) (vr : Py) (g v : Nat),
      res.iterations ≤ (SRSPipeline.attempt_auto_fix gs vs jl m u fuel res vr g v).result.iterations := by
  intro fuel
  induction fuel with
  | zero =>
    intro res vr g v
    simp [SRSPipeline.attempt_auto_fix]
  | succ n ih =>
    intro res vr g v
    simp only [SRSPipeline.attempt_auto_fix]
    split
    · simp
    · split
      · simp
      · split
        · simp
        · exact Nat.le_trans (by simp) (ih _ _ _ _)

/-- The auto-fix loop increments `iterations` at most once per remaining
retry. -/
theorem attempt_auto_fix_iterations_le
    (gs vs : Nat → String → Except String String) (jl : String → Option Py) (m u : String) :
    ∀ (fuel : Nat) (res : PipeResult) (vr : Py) (g v : Nat),
      (SRSPipeline.attempt_auto_fix gs vs jl m u fuel res vr g v).result.iterations ≤
        res.iterations + fuel := by
  intro fuel
  induction fuel with
  | zero =>
    intro res vr g v
    simp [SRSPipeline.attempt_auto_fix]
  | succ n ih =>
    intro res vr g v
    simp only [SRSPipeline.attempt_auto_fix]
    split
    · simp
    · split
      · simp
      · split
        · simp
        · exact Nat.le_trans (ih _ _ _ _) (by simp; omega)

/-- The auto-fix loop never touches the `error` field of the result. -/
theorem attempt_auto_fix_error
    (gs vs : Nat → String → Except String String) (jl : String → Option Py) (m u : String) :
    ∀ (fuel : Nat) (res : PipeResult) (vr : Py) (g v : Nat),
      (SRSPipeline.attempt_auto_fix gs vs jl m u fuel res vr g v).result.error = res.error := by
  intro fuel
  induction fuel with
  | zero =>
    intro res vr g v
    simp [SRSPipeline.attempt_auto_fix]
  | succ n ih =>
    intro res vr g v
    simp only [SRSPipeline.attempt_auto_fix]
    split
    · simp
    · split
      · simp
      · split
        · simp
        · exact (ih _ _ _ _).trans (by simp)

/-- Observer for the Generator invocation one auto-fix round performs, given
the loop state at the start of the round. -/
def roundRegeneration (genSvc : Nat → String → Except String String) (model u : String)
    (res : PipeResult) (vr : Py) (g : Nat) : GenResult :=
  SRSGenerator.generate (genSvc g) model u res.template_used
    (some ("Previous version had these issues that need to be fixed:\n" ++
      SRSPipeline.build_fix_instructions (vr.get "issues" (Py.list [])).asList
        (vr.get "suggestions" (Py.list [])).asList))

/-- Observer for the Validator invocation one auto-fix round performs after a
successful regeneration. -/
def roundValidation (genSvc valSvc : Nat → String → Except String String)
    (jsonLoads : String → Option Py) (model u : String)
    (res : PipeResult) (vr : Py) (g v : Nat) : Py :=
  SRSValidator.validate (valSvc v) jsonLoads model
    ((roundRegeneration genSvc model u res vr g).srs_document.getD "") u
    (res.template_used.getD "") none

/-- C1: for every `max_retries = N ≥ 0`, one `SRSPipeline.run` performs
between 1 and `N + 1` Generator invocations, the auto-fix loop adds at most
`N` regenerate+validate rounds (so at most `N + 1` Validator invocations in
total, and exactly one Generator invocation when `N = 0`), and whenever the
first generation succeeds the returned `iterations` lies in `[1, N + 1]`. -/
theorem srs_C1_iteration_bounds
    (genSvc valSvc : Nat → String → Except String String) (jsonLoads : String → Option Py)
    (model user_requirement : String) (template_name custom_instructions : Option String)
    (validate auto_fix : Bool) (N : Nat) :
    1 ≤ (SRSPipeline.run genSvc valSvc jsonLoads model user_requirement template_name
          custom_instructions validate auto_fix N).genCalls ∧
    (SRSPipeline.run genSvc valSvc jsonLoads model user_requirement template_name
          custom_instructions validate auto_fix N).genCalls ≤ N + 1 ∧
    (SRSPipeline.run genSvc valSvc jsonLoads model user_requirement template_name
          custom_instructions validate auto_fix N).valCalls ≤ N + 1 ∧
    (N = 0 → (SRSPipeline.run genSvc valSvc jsonLoads model user_requirement template_name
          custom_instructions validate auto_fix N).genCalls = 1) ∧
    ((firstGeneration genSvc model user_requirement template_name custom_instructions).success = true →
      1 ≤ (SRSPipeline.run genSvc valSvc jsonLoads model user_requirement template_name
            custom_instructions validate auto_fix N).result.iterations ∧
      (SRSPipeline.run genSvc valSvc jsonLoads model user_requirement template_name
            custom_instructions validate auto_fix N).result.iterations ≤ N + 1) := by
  simp only [SRSPipeline.run, firstGeneration]
  split
  · rename_i h
    exact ⟨by simp, by simp; try omega, by simp; try omega, fun _ => by simp,
      fun hs => absurd hs (by simpa using h)⟩
  · rename_i h
    split
    · split
      · refine ⟨?_, ?_, ?_, ?_, fun _ => ⟨?_, ?_⟩⟩
        · exact Nat.le_trans (by omega) (attempt_auto_fix_genCalls_ge _ _ _ _ _ _ _ _ _ _)
        · exact Nat.le_trans (attempt_auto_fix_genCalls_le _ _ _ _ _ _ _ _ _ _) (by omega)
        · exact Nat.le_trans (attempt_auto_fix_valCalls_le _ _ _ _ _ _ _ _ _ _) (by omega)
        · intro hN
          subst hN
          exact Nat.le_antisymm
            (Nat.le_trans (attempt_auto_fix_genCalls_le _ _ _ _ _ _ _ _ _ _) (by omega))
            (attempt_auto_fix_genCalls_ge _ _ _ _ _ _ _ _ _ _)
        · refine Nat.le_trans ?_ (attempt_auto_fix_iterations_ge _ _ _ _ _ _ _ _ _ _)
          simp
        · refine Nat.le_trans (attempt_auto_fix_iterations_le _ _ _ _ _ _ _ _ _ _) ?_
          simp
          try omega
      · exact ⟨by simp, by simp; try omega, by simp; try omega, fun _ => by simp,
          fun _ => ⟨by simp, by simp; try omega⟩⟩
    · exact ⟨by simp, by simp; try omega, by simp; try omega, fun _ => by simp,
        fun _ => ⟨by simp, by simp; try omega⟩⟩

/-- C4: once a validation round reports a truthy `is_valid`, no further
regeneration or validation occurs. First conjunct: when the first validation
already passes, a run with `auto_fix` performs exactly 1 generation call, 1
validation call and returns `iterations = 1` (the loop is never entered).
Second conjunct: inside the auto-fix loop, a round whose re-validation passes
produces the same outcome as if it had been the final permitted round — the
remaining retries are not consumed. -/
theorem srs_C4_early_exit_on_validity
    (genSvc valSvc : Nat → String → Except String String) (jsonLoads : String → Option Py)
    (model user_requirement : String) :
    (∀ (template_name custom_instructions : Option String) (N : Nat),
      (firstGeneration genSvc model user_requirement template_name custom_instructions).success = true →
      pyTruthy ((firstValidation genSvc valSvc jsonLoads model user_requirement template_name
          custom_instructions).get "is_valid" (Py.bool false)) = true →
      (SRSPipeline.run genSvc valSvc jsonLoads model user_requirement template_name
          custom_instructions true true N).genCalls = 1 ∧
      (SRSPipeline.run genSvc valSvc jsonLoads model user_requirement template_name
          custom_instructions true true N).valCalls = 1 ∧
      (SRSPipeline.run genSvc valSvc jsonLoads model user_requirement template_name
          custom_instructions true true N).result.iterations = 1) ∧
    (∀ (fuel : Nat) (res : PipeResult) (vr : Py) (g v : Nat),
      pyTruthy ((roundValidation genSvc valSvc jsonLoads model user_requirement res vr g v).get
          "is_valid" (Py.bool false)) = true →
      SRSPipeline.attempt_auto_fix genSvc valSvc jsonLoads model user_requirement
          (fuel + 1) res vr g v =
        SRSPipeline.attempt_auto_fix genSvc valSvc jsonLoads model user_requirement
          1 res vr g v) := by
  constructor
  · intro template_name custom_instructions N hgen hval
    simp only [firstGeneration] at hgen
    simp only [firstValidation, firstGeneration] at hval
    simp only [SRSPipeline.run]
    rw [hgen, hval]
    simp
  · intro fuel res vr g v hval
    simp only [roundValidation, roundRegeneration] at hval
    simp only [SRSPipeline.attempt_auto_fix]
    split
    · rfl
    · split
      · rfl
      · simp only [hval]

/-- C7: a failing first generation makes the run return immediately with
`success = False`, the `error` field carrying the generation failure message,
`iterations = 0`, no document, no validation result and zero Validator calls;
and whenever the first generation succeeds the run ends with `success = True`
and no `error` key, whatever validation or the auto-fix loop did downstream. -/
theorem srs_C7_error_only_from_first_generation
    (genSvc valSvc : Nat → String → Except String String) (jsonLoads : String → Option Py)
    (model user_requirement : String) (template_name custom_instructions : Option String)
    (validate auto_fix : Bool) (N : Nat) :
    ((firstGeneration genSvc model user_requirement template_name custom_instructions).success = false →
      (SRSPipeline.run genSvc valSvc jsonLoads model user_requirement template_name
          custom_instructions validate auto_fix N).result.success = false ∧
      (SRSPipeline.run genSvc valSvc jsonLoads model user_requirement template_name
          custom_instructions validate auto_fix N).result.error =
        some ((firstGeneration genSvc model user_requirement template_name
          custom_instructions).error.getD "Generation failed") ∧
      (SRSPipeline.run genSvc valSvc jsonLoads model user_requirement template_name
          custom_instructions validate auto_fix N).result.iterations = 0 ∧
      (SRSPipeline.run genSvc valSvc jsonLoads model user_requirement template_name
          custom_instructions validate auto_fix N).result.srs_document = none ∧
      (SRSPipeline.run genSvc valSvc jsonLoads model user_requirement template_name
          custom_instructions validate auto_fix N).result.validation_result = none ∧
      (SRSPipeline.run genSvc valSvc jsonLoads model user_requirement template_name
          custom_instructions validate auto_fix N).valCalls = 0) ∧
    ((firstGeneration genSvc model user_requirement template_name custom_instructions).success = true →
      (SRSPipeline.run genSvc valSvc jsonLoads model user_requirement template_name
          custom_instructions validate auto_fix N).result.success = true ∧
      (SRSPipeline.run genSvc valSvc jsonLoads model user_requirement template_name
          custom_instructions validate auto_fix N).result.error = none) := by
  simp only [SRSPipeline.run, firstGeneration]
  split
  · rename_i h
    refine ⟨fun _ => ⟨by simp, by simp, by simp, by simp, by simp, by simp⟩, fun hs => ?_⟩
    exact absurd hs (by simpa using h)
  · rename_i h
    refine ⟨fun hf => absurd hf (by simpa using h), fun _ => ?_⟩
    split
    · split
      · constructor
        · simp
        · simp [attempt_auto_fix_error]
      · exact ⟨by simp, by simp⟩
    · exact ⟨by simp, by simp⟩

/-- C9: with `validate = false` the run never populates `validation_result`,
leaves `final_score` at its zero default, performs no Validator call, and
returns `success = True` whenever generation succeeded. -/
theorem srs_C9_quick_generate_frame
    (genSvc valSvc : Nat → String → Except String String) (jsonLoads : String → Option Py)
    (model user_requirement : String) (template_name custom_instructions : Option String)
    (auto_fix : Bool) (N : Nat) :
    (SRSPipeline.run genSvc valSvc jsonLoads model user_requirement template_name
        custom_instructions false auto_fix N).result.validation_result = none ∧
    (SRSPipeline.run genSvc valSvc jsonLoads model user_requirement template_name
        custom_instructions false auto_fix N).result.final_score = Py.int 0 ∧
    (SRSPipeline.run genSvc valSvc jsonLoads model user_requirement template_name
        custom_instructions false auto_fix N).valCalls = 0 ∧
    ((firstGeneration genSvc model user_requirement template_name custom_instructions).success = true →
      (SRSPipeline.run genSvc valSvc jsonLoads model user_requirement template_name
        custom_instructions false auto_fix N).result.success = true) := by
  simp only [SRSPipeline.run, firstGeneration]
  split
  · rename_i h
    exact ⟨by simp, by simp, by simp, fun hs => absurd hs (by simpa using h)⟩
  · exact ⟨by simp, by simp, by simp, fun _ => by simp⟩

/-- A generator oracle that always succeeds, for the concrete scenarios. -/
def scenOkGenSvc : Nat → String → Except String String :=
  fun _ _ => Except.ok "Generated SRS document"

/-- A validator reply that decodes to `is_valid: false` with exactly one
major issue, as in the spec's Scenario C. -/
def scenInvalidMajorReply : String :=
  "\x7b\"is_valid\": false, \"score\": 40, \"issues\": [\x7b\"severity\": \"major\", \"category\": \"completeness\", \"description\": \"Missing sections\"\x7d], \"suggestions\": []\x7d"

/-- A validator oracle that returns `scenInvalidMajorReply` on every round. -/
def scenInvalidValSvc : Nat → String → Except String String :=
  fun _ _ => Except.ok scenInvalidMajorReply

/-- C5: whenever the first generation succeeds, `run` returns
`success = True` regardless of validation outcomes (first conjunct); and in
the concrete Scenario C — `auto_fix` with `max_retries = 2` where every
validation round reports one major issue and `is_valid: false` — exactly 3
Generator calls are made and the result has `iterations = 3` and
`success = True` (remaining conjuncts). -/
theorem srs_C5_success_despite_invalid
    (genSvc valSvc : Nat → String → Except String String) (jsonLoads : String → Option Py)
    (model user_requirement : String) (template_name custom_instructions : Option String)
    (validate auto_fix : Bool) (N : Nat) :
    ((firstGeneration genSvc model user_requirement template_name custom_instructions).success = true →
      (SRSPipeline.run genSvc valSvc jsonLoads model user_requirement template_name
          custom_instructions validate auto_fix N).result.success = true) ∧
    (SRSPipeline.run scenOkGenSvc scenInvalidValSvc jsonDecode "gemini-model"
        "Build a todo application" none none true true 2).genCalls = 3 ∧
    (SRSPipeline.run scenOkGenSvc scenInvalidValSvc jsonDecode "gemini-model"
        "Build a todo application" none none true true 2).result.iterations = 3 ∧
    (SRSPipeline.run scenOkGenSvc scenInvalidValSvc jsonDecode "gemini-model"
        "Build a todo application" none none true true 2).result.success = true := by
  refine ⟨?_, rfl, rfl, rfl⟩
  simp only [SRSPipeline.run, firstGeneration]
  split
  · rename_i h
    exact fun hs => absurd hs (by simpa using h)
  · intro _
    split
    · split
      · simp
      · simp
    · simp

/-- A text-generation oracle that succeeds with a fixed document, for the C2
counterexample. -/
def ceC2Svc : String → Except String String := fun _ => Except.ok "DOC"

/-- C2 counterexample: for the requirement "Formal academic IEEE documentation
needed", generating with the unknown template id `bogus` resolves to the fixed
fallback `agile`, while omitting the template id resolves to the Template
Selector's pick `ieee` — the two calls are observably different, so an unknown
template id does *not* behave like an omitted one. -/
theorem srs_C2_counterexample :
    (SRSGenerator.generate ceC2Svc "gemini-model" "Formal academic IEEE documentation needed"
        (some "bogus") none).template_used = "agile" ∧
    (SRSGenerator.generate ceC2Svc "gemini-model" "Formal academic IEEE documentation needed"
        none none).template_used = "ieee" ∧
    "agile" ≠ "ieee" :=
  ⟨rfl, rfl, by decide⟩

/-- C2 amended: a non-empty template id whose case-insensitive lookup fails is
replaced by the fixed id `agile`: generation behaves exactly as if `agile` had
been requested (in particular it does not error beyond service failures), and
it coincides with auto-selection only when the Selector's pick is `agile`. -/
theorem srs_C2_amended_unknown_template_fallback
    (svc : String → Except String String) (model user_requirement t : String)
    (custom_instructions : Option String)
    (hne : t.isEmpty = false)
    (hunk : TemplateRegistry.get_template (pyLower t) = none) :
    SRSGenerator.generate svc model user_requirement (some t) custom_instructions =
      SRSGenerator.generate svc model user_requirement (some "agile") custom_instructions := by
  have h1 : (!t.isEmpty) = true := by simp [hne]
  simp only [SRSGenerator.generate, h1, if_true, hunk]
  rfl

/-- An issue counts for a `FIX` line when its severity is critical or major
(`issue.get("severity") in ["critical", "major"]`). -/
def isCriticalOrMajor (issue : Py) : Bool :=
  pyEq (issue.get "severity" Py.null) (Py.str "critical")
    || pyEq (issue.get "severity" Py.null) (Py.str "major")

/-- A suggestion counts for an `IMPROVE` line when its priority is high. -/
def isHighPriority (s : Py) : Bool :=
  pyEq (s.get "priority" Py.null) (Py.str "high")

/-- The fix-instruction text as claim C3 reads it: `FIX` lines for all
critical/major issues, then `IMPROVE` lines for at most the first 3 *of the
high-priority suggestions* (filter first, then window). -/
def fixInstructionsClaimed (issues suggestions : List Py) : String :=
  String.intercalate "\n"
    ((issues.filter isCriticalOrMajor).map
        (fun i => "- FIX: " ++ pyStr (i.get "description" (Py.str "Unknown issue"))) ++
      ((suggestions.filter isHighPriority).take 3).map
        (fun s => "- IMPROVE: " ++ pyStr (s.get "suggestion" (Py.str ""))))

/-- The fix-instruction text as the source computes it: `FIX` lines for all
critical/major issues, then `IMPROVE` lines for the high-priority suggestions
*among the first 3 suggestions* (window first, then filter). -/
def fixInstructionsRender (issues suggestions : List Py) : String :=
  String.intercalate "\n"
    ((issues.filter isCriticalOrMajor).map
        (fun i => "- FIX: " ++ pyStr (i.get "description" (Py.str "Unknown issue"))) ++
      ((suggestions.take 3).filter isHighPriority).map
        (fun s => "- IMPROVE: " ++ pyStr (s.get "suggestion" (Py.str ""))))

/-- Three low-priority suggestions followed by one high-priority one: the
window-then-filter order makes the source drop the only high suggestion. -/
def ceSuggestions : List Py :=
  [Py.dict [("priority", Py.str "low"), ("suggestion", Py.str "a")],
   Py.dict [("priority", Py.str "low"), ("suggestion", Py.str "b")],
   Py.dict [("priority", Py.str "low"), ("suggestion", Py.str "c")],
   Py.dict [("priority", Py.str "high"), ("suggestion", Py.str "Add tests")]]

/-- C3 counterexample: with no issues and `ceSuggestions`, the source emits no
`IMPROVE` line at all (the high suggestion sits outside the first-3 window),
while the claim's reading — one line for each of the first 3 high-priority
suggestions — demands one. -/
theorem srs_C3_counterexample :
    SRSPipeline.build_fix_instructions [] ceSuggestions = "" ∧
    fixInstructionsClaimed [] ceSuggestions = "- IMPROVE: Add tests" ∧
    ("" : String) ≠ "- IMPROVE: Add tests" :=
  ⟨by decide, by decide, by decide⟩

/-- `filterMap` of a guarded `some` is filtering followed by mapping. -/
theorem filterMap_ite_eq_map_filter {α β : Type} (p : α → Bool) (f : α → β) (l : List α) :
    l.filterMap (fun x => if p x then some (f x) else none) = (l.filter p).map f := by
  induction l with
  | nil => rfl
  | cons a t ih =>
    by_cases h : p a <;> simp [List.filterMap_cons, List.filter_cons, h, ih]

/-- When the fix-instruction text for the current validation result is empty,
the auto-fix loop stops at once, leaving state and call counts unchanged. -/
theorem attempt_auto_fix_noop
    (gs vs : Nat → String → Except String String) (jl : String → Option Py) (m u : String)
    (fuel : Nat) (res : PipeResult) (vr : Py) (g v : Nat)
    (hfix : SRSPipeline.build_fix_instructions ((vr.get "issues" (Py.list [])).asList)
      ((vr.get "suggestions" (Py.list [])).asList) = "") :
    SRSPipeline.attempt_auto_fix gs vs jl m u fuel res vr g v = ⟨res, g, v⟩ := by
  cases fuel with
  | zero => rfl
  | succ n =>
    simp only [SRSPipeline.attempt_auto_fix]
    rw [hfix]
    rfl

/-- C3 amended: the fix-instruction text consists of one `- FIX: <description>`
line per critical/major issue followed by one `- IMPROVE: <suggestion>` line
per high-priority suggestion *among the first 3 suggestions* (not the first 3
of the high-priority ones), joined with newlines; and whenever the first
validation reports no critical/major issue and no high-priority suggestion at
all, the text is empty and an auto-fix run performs zero additional generation
calls even when `max_retries > 0`. -/
theorem srs_C3_amended_fix_instructions
    (genSvc valSvc : Nat → String → Except String String) (jsonLoads : String → Option Py)
    (model user_requirement : String) :
    (∀ (issues suggestions : List Py),
      SRSPipeline.build_fix_instructions issues suggestions =
        fixInstructionsRender issues suggestions) ∧
    (∀ (template_name custom_instructions : Option String) (N : Nat),
      (firstGeneration genSvc model user_requirement template_name custom_instructions).success = true →
      (((firstValidation genSvc valSvc jsonLoads model user_requirement template_name
          custom_instructions).get "issues" (Py.list [])).asList).all
        (fun i => !isCriticalOrMajor i) = true →
      (((firstValidation genSvc valSvc jsonLoads model user_requirement template_name
          custom_instructions).get "suggestions" (Py.list [])).asList).all
        (fun s => !isHighPriority s) = true →
      (SRSPipeline.run genSvc valSvc jsonLoads model user_requirement template_name
          custom_instructions true true N).genCalls = 1 ∧
      (SRSPipeline.run genSvc valSvc jsonLoads model user_requirement template_name
          custom_instructions true true N).valCalls = 1) := by
  constructor
  · intro issues suggestions
    simp only [SRSPipeline.build_fix_instructions, fixInstructionsRender,
      isCriticalOrMajor, isHighPriority, filterMap_ite_eq_map_filter]
    rfl
  · intro template_name custom_instructions N hgen hI hS
    have hfix : SRSPipeline.build_fix_instructions
        (((firstValidation genSvc valSvc jsonLoads model user_requirement template_name
          custom_instructions).get "issues" (Py.list [])).asList)
        (((firstValidation genSvc valSvc jsonLoads model user_requirement template_name
          custom_instructions).get "suggestions" (Py.list [])).asList) = "" := by
      have hI' : ∀ i ∈ ((firstValidation genSvc valSvc jsonLoads model user_requirement
          template_name custom_instructions).get "issues" (Py.list [])).asList,
          isCriticalOrMajor i = false := by
        intro i hi
        have := List.all_eq_true.mp hI i hi
        simpa using this
      have hS' : ∀ s ∈ (((firstValidation genSvc valSvc jsonLoads model user_requirement
          template_name custom_instructions).get "suggestions" (Py.list [])).asList).take 3,
          isHighPriority s = false := by
        intro s hs
        have := List.all_eq_true.mp hS s (List.mem_of_mem_take hs)
        simpa using this
      simp only [SRSPipeline.build_fix_instructions, isCriticalOrMajor, isHighPriority] at *
      rw [List.filterMap_eq_nil_iff.mpr (fun i hi => by simp [hI' i hi]),
        List.filterMap_eq_nil_iff.mpr (fun s hs => by simp [hS' s hs])]
      rfl
    simp only [firstGeneration] at hgen
    simp only [firstValidation, firstGeneration] at hfix
    simp only [SRSPipeline.run]
    rw [hgen]
    simp only [Bool.not_true]
    split
    · rename_i hcontra
      simp at hcontra
    · split
      · rename_i hval
        split
        · rw [attempt_auto_fix_noop _ _ _ _ _ _ _ _ _ _ hfix]
          exact ⟨rfl, rfl⟩
        · exact ⟨rfl, rfl⟩
      · rename_i hcontra
        simp at hcontra

/-- C6: whenever the validator's model reply cannot be decoded (after optional
fence stripping), `SRSValidator.validate` returns the deterministic
soft-failure fallback: `success: True` (the call completed), `is_valid: False`,
`score: 0`, the fixed overall assessment, exactly one critical `parsing`
issue, empty suggestions and section analysis, and the original reply text
preserved under `raw_response`. -/
theorem srs_C6_parse_failure_fallback
    (svc : String → Except String String) (jsonLoads : String → Option Py)
    (model srs_document user_requirement template_name : String)
    (validation_criteria : Option (List String)) (text : String)
    (hsvc : svc (SRSValidator.build_validation_prompt srs_document user_requirement
      template_name (SRSValidator.resolve_criteria template_name validation_criteria)) =
      Except.ok text)
    (hdec : jsonLoads (SRSValidator.extract_payload text) = none) :
    (SRSValidator.validate svc jsonLoads model srs_document user_requirement template_name
        validation_criteria).get "success" Py.null = Py.bool true ∧
    (SRSValidator.validate svc jsonLoads model srs_document user_requirement template_name
        validation_criteria).get "is_valid" Py.null = Py.bool false ∧
    (SRSValidator.validate svc jsonLoads model srs_document user_requirement template_name
        validation_criteria).get "score" Py.null = Py.int 0 ∧
    (SRSValidator.validate svc jsonLoads model srs_document user_requirement template_name
        validation_criteria).get "overall_assessment" Py.null =
      Py.str "Failed to parse validation response" ∧
    (SRSValidator.validate svc jsonLoads model srs_document user_requirement template_name
        validation_criteria).get "issues" Py.null =
      Py.list [Py.dict [("severity", Py.str "critical"), ("category", Py.str "parsing"),
        ("description", Py.str "Could not parse validation response")]] ∧
    (SRSValidator.validate svc jsonLoads model srs_document user_requirement template_name
        validation_criteria).get "suggestions" Py.null = Py.list [] ∧
    (SRSValidator.validate svc jsonLoads model srs_document user_requirement template_name
        validation_criteria).get "section_analysis" Py.null = Py.list [] ∧
    (SRSValidator.validate svc jsonLoads model srs_document user_requirement template_name
        validation_criteria).get "raw_response" Py.null = Py.str text := by
  simp only [SRSValidator.validate, SRSValidator.parse_validation_response]
  rw [hsvc]
  dsimp only
  rw [hdec]
  exact ⟨rfl, rfl, rfl, rfl, rfl, rfl, rfl, rfl⟩

/-- Does the list contain a triple backtick fence marker anywhere? -/
def containsTriple : List Char → Bool
  | [] => false
  | c :: rest => isTripleTick (c :: rest) || containsTriple rest

/-- Wrap a payload in a fenced code block, with or without the `json` tag. -/
def fenceWrap (jsonTag : Bool) (payload : String) : String :=
  if jsonTag then "```json\n" ++ payload ++ "\n```" else "```\n" ++ payload ++ "\n```"

/-- A newline is not a backtick. -/
theorem newline_beq_tick : (('\n' : Char) == tick) = false := by decide

/-- A list starting with a non-backtick character is not a fence marker. -/
theorem isTripleTick_cons_false {c : Char} (l : List Char) (h : (c == tick) = false) :
    isTripleTick (c :: l) = false := by
  match l with
  | [] => rfl
  | [a] => rfl
  | a :: b :: t => simp [isTripleTick, h]

/-- Appending a newline-headed suffix to a fence-free list cannot create a
fence marker at its head. -/
theorem isTripleTick_append_newline (l r : List Char) (h : isTripleTick l = false) :
    isTripleTick (l ++ '\n' :: r) = false := by
  match l with
  | [] => exact isTripleTick_cons_false r newline_beq_tick
  | [a] =>
    match r with
    | [] => rfl
    | r0 :: r' => simp [isTripleTick, newline_beq_tick]
  | [a, b] => simp [isTripleTick, newline_beq_tick]
  | a :: b :: c :: l' => simpa [isTripleTick] using h

/-- A fence-free prefix stays fence-free after dropping elements from its
front. -/
theorem containsTriple_append_right (a b : List Char) (h : containsTriple (a ++ b) = false) :
    containsTriple b = false := by
  induction a with
  | nil => exact h
  | cons c t ih =>
    simp only [List.cons_append, containsTriple, Bool.or_eq_false_iff] at h
    exact ih h.2

/-- In a fence-free list every position is fence-free. -/
theorem containsTriple_head (c : Char) (rest : List Char)
    (h : containsTriple (c :: rest) = false) :
    isTripleTick (c :: rest) = false ∧ containsTriple rest = false := by
  simpa [containsTriple, Bool.or_eq_false_iff] using h

/-- The lazy regex group over `Q` followed by a newline and the closing fence
is exactly `Q`, provided `Q` itself contains no fence marker. -/
theorem lazyGroup_append_close (Q : List Char) (h : containsTriple Q = false) :
    lazyGroup (Q ++ '\n' :: [tick, tick, tick]) = some Q := by
  induction Q with
  | nil =>
    simp [lazyGroup, isTripleTick_cons_false _ newline_beq_tick, isTripleTick]
  | cons c Q' ih =>
    obtain ⟨h1, h2⟩ := containsTriple_head c Q' h
    have ha : isTripleTick ((c :: Q') ++ '\n' :: [tick, tick, tick]) = false :=
      isTripleTick_append_newline _ _ h1
    have hb : isTripleTick (Q' ++ '\n' :: [tick, tick, tick]) = false := by
      refine isTripleTick_append_newline _ _ ?_
      match Q', h2 with
      | [], _ => rfl
      | q :: Q'', h2 => exact (containsTriple_head q Q'' h2).1
    simp only [List.cons_append] at ha
    simp [lazyGroup, ha, hb, ih h2]

/-- A fence-free reply contains no fenced block: the regex search fails. -/
theorem fenceSearchAux_none (l : List Char) (h : containsTriple l = false) :
    fenceSearchAux l = none := by
  induction l with
  | nil => rfl
  | cons c rest ih =>
    obtain ⟨h1, h2⟩ := containsTriple_head c rest h
    simp only [fenceSearchAux, h1, if_false]
    exact ih h2

/-- Dropping leading whitespace twice is the same as dropping it once. -/
theorem dropWhile_isPySpace_idem (l : List Char) :
    (l.dropWhile isPySpace).dropWhile isPySpace = l.dropWhile isPySpace := by
  induction l with
  | nil => rfl
  | cons c rest ih =>
    by_cases h : isPySpace c
    · simp [List.dropWhile_cons, h, ih]
    · simp [List.dropWhile_cons, h]

/-- A backtick is not Python whitespace. -/
theorem isPySpace_tick : isPySpace tick = false := by decide

/-- A newline is Python whitespace. -/
theorem isPySpace_newline : isPySpace '\n' = true := by decide

/-- After the opening fence and a newline, the regex machinery recovers the
payload minus its leading whitespace, for any fence-free payload. -/
theorem fenceAfter_payload (P : List Char) (hP : containsTriple P = false) :
    fenceAfter ('\n' :: (P ++ '\n' :: [tick, tick, tick])) = some (P.dropWhile isPySpace) := by
  have hQ : containsTriple (P.dropWhile isPySpace) = false := by
    refine containsTriple_append_right (P.takeWhile isPySpace) _ ?_
    rw [List.takeWhile_append_dropWhile]
    exact hP
  simp only [fenceAfter]
  rw [if_neg (by simp [List.take_succ_cons])]
  rw [List.dropWhile_cons_of_pos (by simp [isPySpace_newline])]
  rw [List.dropWhile_append]
  split
  · rename_i hemp
    have : P.dropWhile isPySpace = [] := by simpa using hemp
    rw [this]
    rw [List.dropWhile_cons_of_pos (by simp [isPySpace_newline]),
      List.dropWhile_cons_of_neg (by simp [isPySpace_tick])]
    simp [lazyGroup, isTripleTick]
  · rw [lazyGroup_append_close _ hQ]

/-- Same as `fenceAfter_payload`, after the greedy `(?:json)?` consumed the
`json` tag. -/
theorem fenceAfter_payload_json (P : List Char) (hP : containsTriple P = false) :
    fenceAfter ('j' :: 's' :: 'o' :: 'n' :: '\n' :: (P ++ '\n' :: [tick, tick, tick])) =
      some (P.dropWhile isPySpace) := by
  have h := fenceAfter_payload P hP
  simp only [fenceAfter] at h ⊢
  rw [if_pos (by simp [List.take_succ_cons])]
  rw [if_neg (by simp [List.take_succ_cons])] at h
  simpa using h

/-- Stripping a payload whose leading whitespace has been removed strips the
original payload. -/
theorem pyStrip_mk_dropWhile (P : String) :
    pyStrip (String.mk (P.data.dropWhile isPySpace)) = pyStrip P := by
  simp only [pyStrip]
  rw [dropWhile_isPySpace_idem]

/-- One successful step of the fence search: a reply starting with the
opening fence whose remainder matches yields that match's group. -/
theorem fenceSearchAux_open (X g : List Char) (h : fenceAfter X = some g) :
    fenceSearchAux (tick :: tick :: tick :: X) = some g := by
  rw [fenceSearchAux]
  rw [if_pos (by simp [isTripleTick])]
  rw [show List.drop 2 (tick :: tick :: X) = X from rfl]
  rw [h]

/-- The payload the validator's parser extracts from a fenced reply is exactly
the stripped payload, for any fence-free payload (with or without the `json`
tag on the fence). -/
theorem extract_payload_fenceWrap (tag : Bool) (P : String)
    (h : containsTriple P.data = false) :
    SRSValidator.extract_payload (fenceWrap tag P) = pyStrip P := by
  cases tag with
  | true =>
    have hdata : (fenceWrap true P).data =
        tick :: tick :: tick :: ('j' :: 's' :: 'o' :: 'n' :: '\n' ::
          (P.data ++ '\n' :: [tick, tick, tick])) := by
      simp [fenceWrap, String.data_append]
      rfl
    simp only [SRSValidator.extract_payload, hdata]
    rw [fenceSearchAux_open _ _ (fenceAfter_payload_json P.data h)]
    exact pyStrip_mk_dropWhile P
  | false =>
    have hdata : (fenceWrap false P).data =
        tick :: tick :: tick :: ('\n' :: (P.data ++ '\n' :: [tick, tick, tick])) := by
      simp [fenceWrap, String.data_append]
      rfl
    simp only [SRSValidator.extract_payload, hdata]
    rw [fenceSearchAux_open _ _ (fenceAfter_payload P.data h)]
    exact pyStrip_mk_dropWhile P

/-- A JSON payload that contains a triple backtick inside a string literal. -/
def ceC8Payload : String := "\x7b\"a\": \"``` x\"\x7d"

/-- C8 counterexample: `ceC8Payload` is a decodable JSON payload, yet the
parser applied to it wrapped in a ```json fence differs from the parser
applied to the bare payload — the lazy fence regex stops at the triple
backtick inside the JSON string, truncating the payload into garbage that
falls back to the parse-failure structure. -/
theorem srs_C8_counterexample :
    jsonDecode (pyStrip ceC8Payload) = some (Py.dict [("a", Py.str "``` x")]) ∧
    SRSValidator.parse_validation_response jsonDecode (fenceWrap true ceC8Payload) ≠
      SRSValidator.parse_validation_response jsonDecode ceC8Payload := by
  refine ⟨rfl, ?_⟩
  intro h
  have h1 : (SRSValidator.parse_validation_response jsonDecode
      (fenceWrap true ceC8Payload)).get "overall_assessment" Py.null =
      Py.str "Failed to parse validation response" := rfl
  have h2 : (SRSValidator.parse_validation_response jsonDecode
      ceC8Payload).get "overall_assessment" Py.null = Py.null := rfl
  rw [h, h2] at h1
  exact Py.noConfusion h1

/-- C8 amended: for every payload that contains no triple backtick fence
marker and whose stripped text the decoder accepts, the parser applied to the
payload wrapped in a fenced code block (plain or `json`-tagged) returns
exactly the same result as the parser applied to the bare payload. -/
theorem srs_C8_amended_fenced_block_extraction
    (jsonLoads : String → Option Py) (P : String) (tag : Bool) (v : Py)
    (hnt : containsTriple P.data = false)
    (hdec : jsonLoads (pyStrip P) = some v) :
    SRSValidator.parse_validation_response jsonLoads (fenceWrap tag P) =
      SRSValidator.parse_validation_response jsonLoads P := by
  have hwrap : SRSValidator.extract_payload (fenceWrap tag P) = pyStrip P :=
    extract_payload_fenceWrap tag P hnt
  have hbare : SRSValidator.extract_payload P = pyStrip P := by
    simp only [SRSValidator.extract_payload]
    rw [fenceSearchAux_none P.data hnt]
  simp only [SRSValidator.parse_validation_response, hwrap, hbare, hdec]

/-- C10: with `auto_fix` and at least one retry, a first validation whose
model reply could not be decoded (the parse-failure fallback) makes the
pipeline call the Generator at least once more — the fallback's single
critical `parsing` issue produces non-empty fix instructions, so an
interpretation failure consumes auto-fix retries (first conjunct); by
contrast, a first validation that failed at the service-call level
(`success: False`, no issues list) produces empty fix instructions and the
run performs no additional Generator call (second conjunct). -/
theorem srs_C10_parse_failure_consumes_retry
    (genSvc valSvc : Nat → String → Except String String) (jsonLoads : String → Option Py)
    (model user_requirement : String) (template_name custom_instructions : Option String)
    (N : Nat) :
    (∀ (text : String), 1 ≤ N →
      (firstGeneration genSvc model user_requirement template_name custom_instructions).success = true →
      valSvc 0 (firstValidationPrompt genSvc model user_requirement template_name
        custom_instructions) = Except.ok text →
      jsonLoads (SRSValidator.extract_payload text) = none →
      2 ≤ (SRSPipeline.run genSvc valSvc jsonLoads model user_requirement template_name
        custom_instructions true true N).genCalls) ∧
    (∀ (e : String),
      (firstGeneration genSvc model user_requirement template_name custom_instructions).success = true →
      valSvc 0 (firstValidationPrompt genSvc model user_requirement template_name
        custom_instructions) = Except.error e →
      (SRSPipeline.run genSvc valSvc jsonLoads model user_requirement template_name
        custom_instructions true true N).genCalls = 1) := by
  constructor
  · intro text hN hgen hsvc hdec
    simp only [firstGeneration] at hgen
    simp only [firstValidationPrompt, firstGeneration] at hsvc
    have hval : pyTruthy ((SRSValidator.validate (valSvc 0) jsonLoads model
        ((SRSGenerator.generate (genSvc 0) model user_requirement template_name
          custom_instructions).srs_document.getD "") user_requirement
        (SRSGenerator.generate (genSvc 0) model user_requirement template_name
          custom_instructions).template_used
        (SRSGenerator.generate (genSvc 0) model user_requirement template_name
          custom_instructions).validation_criteria).get "is_valid" (Py.bool false)) = false := by
      simp only [SRSValidator.validate]
      rw [hsvc]
      dsimp only
      rw [SRSValidator.parse_validation_response, hdec]
      rfl
    have hissues : ((SRSValidator.validate (valSvc 0) jsonLoads model
        ((SRSGenerator.generate (genSvc 0) model user_requirement template_name
          custom_instructions).srs_document.getD "") user_requirement
        (SRSGenerator.generate (genSvc 0) model user_requirement template_name
          custom_instructions).template_used
        (SRSGenerator.generate (genSvc 0) model user_requirement template_name
          custom_instructions).validation_criteria).get "issues" (Py.list [])).asList =
        [Py.dict [("severity", Py.str "critical"), ("category", Py.str "parsing"),
          ("description", Py.str "Could not parse validation response")]] := by
      simp only [SRSValidator.validate]
      rw [hsvc]
      dsimp only
      rw [SRSValidator.parse_validation_response, hdec]
      rfl
    have hsuggs : ((SRSValidator.validate (valSvc 0) jsonLoads model
        ((SRSGenerator.generate (genSvc 0) model user_requirement template_name
          custom_instructions).srs_document.getD "") user_requirement
        (SRSGenerator.generate (genSvc 0) model user_requirement template_name
          custom_instructions).template_used
        (SRSGenerator.generate (genSvc 0) model user_requirement template_name
          custom_instructions).validation_criteria).get "suggestions" (Py.list [])).asList =
        [] := by
      simp only [SRSValidator.validate]
      rw [hsvc]
      dsimp only
      rw [SRSValidator.parse_validation_response, hdec]
      rfl
    simp only [SRSPipeline.run]
    rw [hgen]
    simp only [Bool.not_true]
    rw [if_neg (by simp)]
    rw [if_pos (by trivial)]
    rw [if_pos (by rw [hval]; rfl)]
    cases N with
    | zero => omega
    | succ m =>
      simp only [SRSPipeline.attempt_auto_fix]
      rw [hissues, hsuggs]
      rw [if_neg (by decide)]
      split
      · simp
      · split
        · simp
        · exact Nat.le_trans (by omega) (attempt_auto_fix_genCalls_ge _ _ _ _ _ _ _ _ _ _)
  · intro e hgen hsvc
    simp only [firstGeneration] at hgen
    simp only [firstValidationPrompt, firstGeneration] at hsvc
    have hval : pyTruthy ((SRSValidator.validate (valSvc 0) jsonLoads model
        ((SRSGenerator.generate (genSvc 0) model user_requirement template_name
          custom_instructions).srs_document.getD "") user_requirement
        (SRSGenerator.generate (genSvc 0) model user_requirement template_name
          custom_instructions).template_used
        (SRSGenerator.generate (genSvc 0) model user_requirement template_name
          custom_instructions).validation_criteria).get "is_valid" (Py.bool false)) = false := by
      simp only [SRSValidator.validate]
      rw [hsvc]
      rfl
    have hfix : SRSPipeline.build_fix_instructions
        (((SRSValidator.validate (valSvc 0) jsonLoads model
          ((SRSGenerator.generate (genSvc 0) model user_requirement template_name
            custom_instructions).srs_document.getD "") user_requirement
          (SRSGenerator.generate (genSvc 0) model user_requirement template_name
            custom_instructions).template_used
          (SRSGenerator.generate (genSvc 0) model user_requirement template_name
            custom_instructions).validation_criteria).get "issues" (Py.list [])).asList)
        (((SRSValidator.validate (valSvc 0) jsonLoads model
          ((SRSGenerator.generate (genSvc 0) model user_requirement template_name
            custom_instructions).srs_document.getD "") user_requirement
          (SRSGenerator.generate (genSvc 0) model user_requirement template_name
            custom_instructions).template_used
          (SRSGenerator.generate (genSvc 0) model user_requirement template_name
            custom_instructions).validation_criteria).get "suggestions" (Py.list [])).asList) = "" := by
      simp only [SRSValidator.validate]
      rw [hsvc]
      rfl
    simp only [SRSPipeline.run]
    rw [hgen]
    simp only [Bool.not_true]
    rw [if_neg (by simp)]
    rw [if_pos (by trivial)]
    rw [if_pos (by rw [hval]; rfl)]
    rw [attempt_auto_fix_noop _ _ _ _ _ _ _ _ _ _ hfix]

/-- A generator oracle that always fails, for the C7 witness. -/
def scenFailGenSvc : Nat → String → Except String String :=
  fun _ _ => Except.error "quota exhausted"

/-- A validator reply that decodes with a truthy `is_valid`. -/
def scenValidReply : String := "\x7b\"is_valid\": true, \"score\": 92\x7d"

/-- A validator oracle whose reply always passes validation. -/
def scenValidValSvc : Nat → String → Except String String :=
  fun _ _ => Except.ok scenValidReply

/-- A validator reply with only a minor issue and a low-priority suggestion:
invalid, but nothing actionable for the auto-fix loop. -/
def scenMinorReply : String :=
  "\x7b\"is_valid\": false, \"score\": 70, \"issues\": [\x7b\"severity\": \"minor\", \"category\": \"style\", \"description\": \"wording\"\x7d], \"suggestions\": [\x7b\"priority\": \"low\", \"suggestion\": \"polish\"\x7d]\x7d"

/-- A validator oracle returning `scenMinorReply`. -/
def scenMinorValSvc : Nat → String → Except String String :=
  fun _ _ => Except.ok scenMinorReply

/-- A validator oracle whose reply is undecodable prose. -/
def scenProseValSvc : Nat → String → Except String String :=
  fun _ _ => Except.ok "The document looks fine to me."

/-- A validator oracle whose service call raises. -/
def scenErrValSvc : Nat → String → Except String String :=
  fun _ _ => Except.error "service unavailable"

/-- A mid-loop pipeline state for the C4 witness. -/
def ceRes : PipeResult :=
  { success := false, user_requirement := "Build a todo application",
    template_used := some "agile", srs_document := some "draft", validation_result := none,
    iterations := 1, final_score := Py.int 40, error := none,
    template_description := none, sections := none }

/-- A mid-loop validation result with one major issue, for the C4 witness. -/
def ceVr : Py :=
  Py.dict [("is_valid", Py.bool false), ("score", Py.int 40),
    ("issues", Py.list [Py.dict [("severity", Py.str "major"),
      ("description", Py.str "Missing sections")]]),
    ("suggestions", Py.list [])]

/-- Witness for C1 at concrete oracles: bounds hold at `max_retries = 2`, and
at `max_retries = 0` exactly one generation call happens. -/
theorem srs_C1_iteration_bounds_witness :
    1 ≤ (SRSPipeline.run scenOkGenSvc scenInvalidValSvc jsonDecode "gemini-model"
        "Build a todo application" none none true true 2).genCalls ∧
    (SRSPipeline.run scenOkGenSvc scenInvalidValSvc jsonDecode "gemini-model"
        "Build a todo application" none none true true 2).genCalls ≤ 3 ∧
    (SRSPipeline.run scenOkGenSvc scenInvalidValSvc jsonDecode "gemini-model"
        "Build a todo application" none none true true 2).valCalls ≤ 3 ∧
    1 ≤ (SRSPipeline.run scenOkGenSvc scenInvalidValSvc jsonDecode "gemini-model"
        "Build a todo application" none none true true 2).result.iterations ∧
    (SRSPipeline.run scenOkGenSvc scenInvalidValSvc jsonDecode "gemini-model"
        "Build a todo application" none none true true 2).result.iterations ≤ 3 ∧
    (SRSPipeline.run scenOkGenSvc scenInvalidValSvc jsonDecode "gemini-model"
        "Build a todo application" none none true true 0).genCalls = 1 := by
  obtain ⟨a, b, c, -, e⟩ := srs_C1_iteration_bounds scenOkGenSvc scenInvalidValSvc jsonDecode
    "gemini-model" "Build a todo application" none none true true 2
  obtain ⟨-, -, -, d0, -⟩ := srs_C1_iteration_bounds scenOkGenSvc scenInvalidValSvc jsonDecode
    "gemini-model" "Build a todo application" none none true true 0
  exact ⟨a, b, c, (e rfl).1, (e rfl).2, d0 rfl⟩

/-- Witness for the amended C2 at the unknown id `bogus`. -/
theorem srs_C2_amended_witness :
    SRSGenerator.generate ceC2Svc "gemini-model" "Formal academic IEEE documentation needed"
        (some "bogus") none =
      SRSGenerator.generate ceC2Svc "gemini-model" "Formal academic IEEE documentation needed"
        (some "agile") none :=
  srs_C2_amended_unknown_template_fallback ceC2Svc "gemini-model"
    "Formal academic IEEE documentation needed" "bogus" none rfl rfl

/-- Witness for the amended C3: the render equation at `ceSuggestions`, and a
run whose first validation reports only a minor issue and a low-priority
suggestion performs no additional generation call despite two retries. -/
theorem srs_C3_amended_witness :
    SRSPipeline.build_fix_instructions [] ceSuggestions =
      fixInstructionsRender [] ceSuggestions ∧
    (SRSPipeline.run scenOkGenSvc scenMinorValSvc jsonDecode "gemini-model"
        "Build a todo application" none none true true 2).genCalls = 1 ∧
    (SRSPipeline.run scenOkGenSvc scenMinorValSvc jsonDecode "gemini-model"
        "Build a todo application" none none true true 2).valCalls = 1 := by
  obtain ⟨h1, h2⟩ := srs_C3_amended_fix_instructions scenOkGenSvc scenMinorValSvc jsonDecode
    "gemini-model" "Build a todo application"
  obtain ⟨a, b⟩ := h2 none none 2 rfl (by decide) (by decide)
  exact ⟨h1 [] ceSuggestions, a, b⟩

/-- Witness for C4: a first validation that passes gives a 1-call run, and a
passing mid-loop round at `fuel = 6` equals the `fuel = 1` round. -/
theorem srs_C4_early_exit_witness :
    (SRSPipeline.run scenOkGenSvc scenValidValSvc jsonDecode "gemini-model"
        "Build a todo application" none none true true 2).genCalls = 1 ∧
    (SRSPipeline.run scenOkGenSvc scenValidValSvc jsonDecode "gemini-model"
        "Build a todo application" none none true true 2).valCalls = 1 ∧
    (SRSPipeline.run scenOkGenSvc scenValidValSvc jsonDecode "gemini-model"
        "Build a todo application" none none true true 2).result.iterations = 1 ∧
    SRSPipeline.attempt_auto_fix scenOkGenSvc scenValidValSvc jsonDecode "gemini-model"
        "Build a todo application" 6 ceRes ceVr 1 1 =
      SRSPipeline.attempt_auto_fix scenOkGenSvc scenValidValSvc jsonDecode "gemini-model"
        "Build a todo application" 1 ceRes ceVr 1 1 := by
  obtain ⟨ha, hb⟩ := srs_C4_early_exit_on_validity scenOkGenSvc scenValidValSvc jsonDecode
    "gemini-model" "Build a todo application"
  obtain ⟨a, b, c⟩ := ha none none 2 rfl rfl
  exact ⟨a, b, c, hb 5 ceRes ceVr 1 1 rfl⟩

/-- Witness for C5: the universal conjunct applied to Scenario C's oracles. -/
theorem srs_C5_success_witness :
    (SRSPipeline.run scenOkGenSvc scenInvalidValSvc jsonDecode "gemini-model"
        "Build a todo application" none none true true 2).result.success = true :=
  (srs_C5_success_despite_invalid scenOkGenSvc scenInvalidValSvc jsonDecode "gemini-model"
    "Build a todo application" none none true true 2).1 rfl

/-- Witness for C6 at an undecodable prose reply. -/
theorem srs_C6_parse_failure_witness :
    (SRSValidator.validate (scenProseValSvc 0) jsonDecode "gemini-model" "doc"
        "Build a todo application" "agile" none).get "success" Py.null = Py.bool true ∧
    (SRSValidator.validate (scenProseValSvc 0) jsonDecode "gemini-model" "doc"
        "Build a todo application" "agile" none).get "is_valid" Py.null = Py.bool false ∧
    (SRSValidator.validate (scenProseValSvc 0) jsonDecode "gemini-model" "doc"
        "Build a todo application" "agile" none).get "score" Py.null = Py.int 0 ∧
    (SRSValidator.validate (scenProseValSvc 0) jsonDecode "gemini-model" "doc"
        "Build a todo application" "agile" none).get "overall_assessment" Py.null =
      Py.str "Failed to parse validation response" ∧
    (SRSValidator.validate (scenProseValSvc 0) jsonDecode "gemini-model" "doc"
        "Build a todo application" "agile" none).get "issues" Py.null =
      Py.list [Py.dict [("severity", Py.str "critical"), ("category", Py.str "parsing"),
        ("description", Py.str "Could not parse validation response")]] ∧
    (SRSValidator.validate (scenProseValSvc 0) jsonDecode "gemini-model" "doc"
        "Build a todo application" "agile" none).get "suggestions" Py.null = Py.list [] ∧
    (SRSValidator.validate (scenProseValSvc 0) jsonDecode "gemini-model" "doc"
        "Build a todo application" "agile" none).get "section_analysis" Py.null = Py.list [] ∧
    (SRSValidator.validate (scenProseValSvc 0) jsonDecode "gemini-model" "doc"
        "Build a todo application" "agile" none).get "raw_response" Py.null =
      Py.str "The document looks fine to me." :=
  srs_C6_parse_failure_fallback (scenProseValSvc 0) jsonDecode "gemini-model" "doc"
    "Build a todo application" "agile" none "The document looks fine to me." rfl rfl

/-- Witness for C7: a failing first generation and a succeeding one. -/
theorem srs_C7_error_path_witness :
    (SRSPipeline.run scenFailGenSvc scenInvalidValSvc jsonDecode "gemini-model"
        "Build a todo application" none none true true 2).result.success = false ∧
    (SRSPipeline.run scenFailGenSvc scenInvalidValSvc jsonDecode "gemini-model"
        "Build a todo application" none none true true 2).result.error =
      some "quota exhausted" ∧
    (SRSPipeline.run scenFailGenSvc scenInvalidValSvc jsonDecode "gemini-model"
        "Build a todo application" none none true true 2).result.iterations = 0 ∧
    (SRSPipeline.run scenFailGenSvc scenInvalidValSvc jsonDecode "gemini-model"
        "Build a todo application" none none true true 2).valCalls = 0 ∧
    (SRSPipeline.run scenOkGenSvc scenInvalidValSvc jsonDecode "gemini-model"
        "Build a todo application" none none true true 2).result.error = none := by
  obtain ⟨hf, -⟩ := srs_C7_error_only_from_first_generation scenFailGenSvc scenInvalidValSvc
    jsonDecode "gemini-model" "Build a todo application" none none true true 2
  obtain ⟨a, b, c, -, -, f⟩ := hf rfl
  obtain ⟨-, hs⟩ := srs_C7_error_only_from_first_generation scenOkGenSvc scenInvalidValSvc
    jsonDecode "gemini-model" "Build a todo application" none none true true 2
  exact ⟨a, b, c, f, (hs rfl).2⟩

/-- A fence-free JSON payload for the C8 witness. -/
def ceC8NoTickPayload : String := "  \x7b\"is_valid\": true, \"score\": 88\x7d  "

/-- Witness for the amended C8: a fence-free decodable payload parses the same
wrapped and bare. -/
theorem srs_C8_amended_witness :
    SRSValidator.parse_validation_response jsonDecode (fenceWrap true ceC8NoTickPayload) =
      SRSValidator.parse_validation_response jsonDecode ceC8NoTickPayload :=
  srs_C8_amended_fenced_block_extraction jsonDecode ceC8NoTickPayload true
    (Py.dict [("is_valid", Py.bool true), ("score", Py.int 88)]) (by decide) rfl

/-- Witness for C9 at concrete oracles. -/
theorem srs_C9_quick_generate_witness :
    (SRSPipeline.run scenOkGenSvc scenInvalidValSvc jsonDecode "gemini-model"
        "Build a todo application" none none false true 2).result.validation_result = none ∧
    (SRSPipeline.run scenOkGenSvc scenInvalidValSvc jsonDecode "gemini-model"
        "Build a todo application" none none false true 2).result.final_score = Py.int 0 ∧
    (SRSPipeline.run scenOkGenSvc scenInvalidValSvc jsonDecode "gemini-model"
        "Build a todo application" none none false true 2).valCalls = 0 ∧
    (SRSPipeline.run scenOkGenSvc scenInvalidValSvc jsonDecode "gemini-model"
        "Build a todo application" none none false true 2).result.success = true := by
  obtain ⟨a, b, c, d⟩ := srs_C9_quick_generate_frame scenOkGenSvc scenInvalidValSvc jsonDecode
    "gemini-model" "Build a todo application" none none true 2
  exact ⟨a, b, c, d rfl⟩

/-- Witness for C10: an undecodable first validation reply consumes a retry;
a service-level validation failure does not. -/
theorem srs_C10_parse_failure_witness :
    2 ≤ (SRSPipeline.run scenOkGenSvc scenProseValSvc jsonDecode "gemini-model"
        "Build a todo application" none none true true 2).genCalls ∧
    (SRSPipeline.run scenOkGenSvc scenErrValSvc jsonDecode "gemini-model"
        "Build a todo application" none none true true 2).genCalls = 1 := by
  obtain ⟨h1, -⟩ := srs_C10_parse_failure_consumes_retry scenOkGenSvc scenProseValSvc jsonDecode
    "gemini-model" "Build a todo application" none none 2
  obtain ⟨-, h2⟩ := srs_C10_parse_failure_consumes_retry scenOkGenSvc scenErrValSvc jsonDecode
    "gemini-model" "Build a todo application" none none 2
  exact ⟨h1 "The document looks fine to me." (by omega) rfl rfl rfl,
    h2 "service unavailable" rfl rfl⟩
